import Mathlib

set_option maxRecDepth 10000

/-!
Verification of the librescoot bluetooth-service serial transport and
message-routing engine, shallowly embedded from the Go sources.

Part 1: the USOCK frame codec (`pkg/usock`): the CRC-16/ARC table and
`calculateCRC16`, the frame encoder `WriteWithFrameID`, and the byte-wise
receive state machine `processByte`.

Bytes are modelled as `Nat`; the serial layer only ever feeds values
below 256, and theorems that quantify over raw byte streams carry that
bound as a hypothesis where it is meaningful.
-/

namespace Usock

/-- Maximum payload length accepted by the codec (`MaxPayloadLength`). -/
def MaxPayloadLength : Nat := 1024

/-- First sync byte (`SyncByte1`). -/
def SyncByte1 : Nat := 0xF6

/-- Second sync byte (`SyncByte2`). -/
def SyncByte2 : Nat := 0xD9

/-- The CRC-16/ARC lookup table (`crc16Table`), transcribed entry for entry. -/
def crc16Table : List Nat := [
  0x0000, 0xC0C1, 0xC181, 0x0140, 0xC301, 0x03C0, 0x0280, 0xC241, 0xC601, 0x06C0, 0x0780, 0xC741,
  0x0500, 0xC5C1, 0xC481, 0x0440, 0xCC01, 0x0CC0, 0x0D80, 0xCD41, 0x0F00, 0xCFC1, 0xCE81, 0x0E40,
  0x0A00, 0xCAC1, 0xCB81, 0x0B40, 0xC901, 0x09C0, 0x0880, 0xC841, 0xD801, 0x18C0, 0x1980, 0xD941,
  0x1B00, 0xDBC1, 0xDA81, 0x1A40, 0x1E00, 0xDEC1, 0xDF81, 0x1F40, 0xDD01, 0x1DC0, 0x1C80, 0xDC41,
  0x1400, 0xD4C1, 0xD581, 0x1540, 0xD701, 0x17C0, 0x1680, 0xD641, 0xD201, 0x12C0, 0x1380, 0xD341,
  0x1100, 0xD1C1, 0xD081, 0x1040, 0xF001, 0x30C0, 0x3180, 0xF141, 0x3300, 0xF3C1, 0xF281, 0x3240,
  0x3600, 0xF6C1, 0xF781, 0x3740, 0xF501, 0x35C0, 0x3480, 0xF441, 0x3C00, 0xFCC1, 0xFD81, 0x3D40,
  0xFF01, 0x3FC0, 0x3E80, 0xFE41, 0xFA01, 0x3AC0, 0x3B80, 0xFB41, 0x3900, 0xF9C1, 0xF881, 0x3840,
  0x2800, 0xE8C1, 0xE981, 0x2940, 0xEB01, 0x2BC0, 0x2A80, 0xEA41, 0xEE01, 0x2EC0, 0x2F80, 0xEF41,
  0x2D00, 0xEDC1, 0xEC81, 0x2C40, 0xE401, 0x24C0, 0x2580, 0xE541, 0x2700, 0xE7C1, 0xE681, 0x2640,
  0x2200, 0xE2C1, 0xE381, 0x2340, 0xE101, 0x21C0, 0x2080, 0xE041, 0xA001, 0x60C0, 0x6180, 0xA141,
  0x6300, 0xA3C1, 0xA281, 0x6240, 0x6600, 0xA6C1, 0xA781, 0x6740, 0xA501, 0x65C0, 0x6480, 0xA441,
  0x6C00, 0xACC1, 0xAD81, 0x6D40, 0xAF01, 0x6FC0, 0x6E80, 0xAE41, 0xAA01, 0x6AC0, 0x6B80, 0xAB41,
  0x6900, 0xA9C1, 0xA881, 0x6840, 0x7800, 0xB8C1, 0xB981, 0x7940, 0xBB01, 0x7BC0, 0x7A80, 0xBA41,
  0xBE01, 0x7EC0, 0x7F80, 0xBF41, 0x7D00, 0xBDC1, 0xBC81, 0x7C40, 0xB401, 0x74C0, 0x7580, 0xB541,
  0x7700, 0xB7C1, 0xB681, 0x7640, 0x7200, 0xB2C1, 0xB381, 0x7340, 0xB101, 0x71C0, 0x7080, 0xB041,
  0x5000, 0x90C1, 0x9181, 0x5140, 0x9301, 0x53C0, 0x5280, 0x9241, 0x9601, 0x56C0, 0x5780, 0x9741,
  0x5500, 0x95C1, 0x9481, 0x5440, 0x9C01, 0x5CC0, 0x5D80, 0x9D41, 0x5F00, 0x9FC1, 0x9E81, 0x5E40,
  0x5A00, 0x9AC1, 0x9B81, 0x5B40, 0x9901, 0x59C0, 0x5880, 0x9841, 0x8801, 0x48C0, 0x4980, 0x8941,
  0x4B00, 0x8BC1, 0x8A81, 0x4A40, 0x4E00, 0x8EC1, 0x8F81, 0x4F40, 0x8D01, 0x4DC0, 0x4C80, 0x8C41,
  0x4400, 0x84C1, 0x8581, 0x4540, 0x8701, 0x47C0, 0x4680, 0x8641, 0x8201, 0x42C0, 0x4380, 0x8341,
  0x4100, 0x81C1, 0x8081, 0x4040]

/-- `calculateCRC16(data, seed)`: table-driven CRC-16/ARC over the bytes of
`data`, starting from `seed`.  Mirrors the Go loop
`crc = (crc >> 8) ^ crc16Table[(crc ^ b) & 0xff]`. -/
def calculateCRC16 (data : List Nat) (seed : Nat) : Nat :=
  data.foldl (fun crc b => (crc >>> 8) ^^^ crc16Table.getD ((crc ^^^ b) &&& 0xFF) 0) seed

/-- The receive state machine states (`StateSync1` .. `StatePayloadCRC2`). -/
inductive RxPhase where
  | sync1 | sync2 | frameID | payloadLen1 | payloadLen2
  | headerCRC1 | headerCRC2 | payload | payloadCRC1 | payloadCRC2
  deriving DecidableEq, Repr

/-- The mutable receive-side state of a `USOCK`: the state-machine state,
the in-progress `Frame` fields, and the CRC scratch buffer. -/
structure RxState where
  phase : RxPhase
  id : Nat
  payloadLen : Nat
  headerCRC : Nat
  payloadCRC : Nat
  payload : List Nat
  buffer : List Nat
  deriving Repr

/-- The state of a freshly created `USOCK`: `state: StateSync1`, zero-valued
frame, empty buffer. -/
def initRxState : RxState :=
  { phase := .sync1, id := 0, payloadLen := 0, headerCRC := 0, payloadCRC := 0,
    payload := [], buffer := [] }

/-- An emitted frame, as handed to the handler callback: the frame ID and a
copy of the payload bytes. -/
abbrev EmittedFrame := Nat × List Nat

/-- `processByte`: one step of the receive state machine.  Returns the new
state together with the frame delivered upward, if this byte completed one.
Each branch mirrors the corresponding `case` of the Go `switch`. -/
def processByte (u : RxState) (b : Nat) : RxState × Option EmittedFrame :=
  match u.phase with
  | .sync1 =>
      if b = SyncByte1 then
        ({ u with phase := .sync2, buffer := [b] }, none)
      else (u, none)
  | .sync2 =>
      if b = SyncByte2 then
        ({ u with phase := .frameID, buffer := u.buffer ++ [b] }, none)
      else ({ u with phase := .sync1 }, none)
  | .frameID =>
      ({ u with id := b, buffer := u.buffer ++ [b], phase := .payloadLen1 }, none)
  | .payloadLen1 =>
      ({ u with payloadLen := b, buffer := u.buffer ++ [b], phase := .payloadLen2 }, none)
  | .payloadLen2 =>
      let len := u.payloadLen ||| (b <<< 8)
      let buf := u.buffer ++ [b]
      let hcrc := calculateCRC16 buf 0
      if len > MaxPayloadLength then
        ({ u with payloadLen := len, buffer := buf, headerCRC := hcrc, phase := .sync1 }, none)
      else
        ({ u with payloadLen := len, buffer := buf, headerCRC := hcrc, phase := .headerCRC1 }, none)
  | .headerCRC1 =>
      ({ u with headerCRC := b, phase := .headerCRC2 }, none)
  | .headerCRC2 =>
      let received := u.headerCRC ||| (b <<< 8)
      let calculated := calculateCRC16 u.buffer 0
      if calculated ≠ received then
        ({ u with headerCRC := received, phase := .sync1 }, none)
      else
        ({ u with headerCRC := received, payload := [], buffer := [], phase := .payload }, none)
  | .payload =>
      let pl := u.payload ++ [b]
      let buf := u.buffer ++ [b]
      if pl.length ≥ u.payloadLen then
        ({ u with payload := pl, buffer := buf, payloadCRC := calculateCRC16 buf 0,
                  phase := .payloadCRC1 }, none)
      else
        ({ u with payload := pl, buffer := buf }, none)
  | .payloadCRC1 =>
      ({ u with payloadCRC := b, phase := .payloadCRC2 }, none)
  | .payloadCRC2 =>
      let received := u.payloadCRC ||| (b <<< 8)
      let calculated := calculateCRC16 u.buffer 0
      if calculated ≠ received then
        ({ u with payloadCRC := received, phase := .sync1 }, none)
      else
        ({ u with payloadCRC := received, phase := .sync1 }, some (u.id, u.payload))

/-- Feed a list of bytes through the state machine in order (the receive
loop), collecting all frames delivered upward. -/
def processBytes (u : RxState) : List Nat → RxState × List EmittedFrame
  | [] => (u, [])
  | b :: rest =>
      let step := processByte u b
      let rec' := processBytes step.1 rest
      (rec'.1, step.2.toList ++ rec'.2)

/-- `WriteWithFrameID(frameID, data)`: the frame encoder.  Returns `none`
when the payload exceeds `MaxPayloadLength`, otherwise the complete frame
buffer: 5-byte header, little-endian header CRC, payload, little-endian
payload CRC. -/
def WriteWithFrameID (frameID : Nat) (data : List Nat) : Option (List Nat) :=
  if data.length > MaxPayloadLength then none
  else
    let header := [SyncByte1, SyncByte2, frameID,
                   data.length &&& 0xFF, (data.length >>> 8) &&& 0xFF]
    let headerCRC := calculateCRC16 header 0
    let payloadCRC := calculateCRC16 data 0
    some (header ++ [headerCRC &&& 0xFF, (headerCRC >>> 8) &&& 0xFF]
                 ++ data ++ [payloadCRC &&& 0xFF, (payloadCRC >>> 8) &&& 0xFF])

end Usock

/-!
Part 2: the service layer (`pkg/service`, `pkg/ble`): message-type and
subtype constants, value conversion helpers, the inbound message router
`HandleUSockMessage` with its per-family handlers, the Redis pub/sub
dispatch of `SubscribeToRedisChannels`, and the outbound update functions.

Store and UART interactions are modelled as an explicit `Effect` list, in
the order the Go code performs them.  Decoded CBOR values are modelled by
`CVal`; the codec library delivers unsigned integers as `uint64`, signed
ones as `int64`, text as `string` and arrays as `[]interface{}` (Go byte
strings, which `convertToString` would also accept, carry no routing
significance and are not part of the value domain).  The Go `int` is
modelled as the 64-bit build's `int64`, i.e. as `Int` with the
`convertToInt` range checks of that build.
-/

namespace Svc

/-- `ble.MessageType` constants. -/
def TypeDataStream : Nat := 0x00C0
def TypeBLEParam : Nat := 0xA080
def TypeBattery : Nat := 0x00E0
def TypeVehicleState : Nat := 0x0020
def TypeScooterInfo : Nat := 0xA040
def TypePowerManagement : Nat := 0x0800
def TypeBLEPairingPinDisplay : Nat := 0xA080 + 2
def TypeBLEPairingPinRemove : Nat := 0xA080 + 3
def TypeBLEStatus : Nat := 0xA080 + 4
def TypeBLECommand : Nat := 0xAA00
def TypeBLEDebug : Nat := 0xA020
def TypeBLEReset : Nat := 0xA020 + 1
def TypeBLEVersion : Nat := 0xA000
def TypeAuxBattery : Nat := 0x0040
def TypeBatteryInfo : Nat := 0x0060
def TypePowerMux : Nat := 0x0100

/-- `ble.SubType` constants. -/
def TypeDataStreamEnable : Nat := 1
def TypeDataStreamSync : Nat := 2
def TypeBLEParamMACAddress : Nat := 1
def TypeBLEParamData : Nat := 24
def TypeBatterySlot1State : Nat := 0x00E2
def TypeBatterySlot1Presence : Nat := 0x00E3
def TypeBatterySlot1CycleCount : Nat := 0x00E6
def TypeBatterySlot1Charge : Nat := 0x00E9
def TypeBatterySlot2State : Nat := 0x00EE
def TypeBatterySlot2Presence : Nat := 0x00EF
def TypeBatterySlot2CycleCount : Nat := 0x00F2
def TypeBatterySlot2Charge : Nat := 0x00F5
def TypeSoftwareVersion : Nat := 1
def TypeMileage : Nat := 2
def TypePowerManagementState : Nat := 1
def TypePowerManagementPowerRequest : Nat := 2
def TypeBLEDebugResetAck : Nat := 3
def TypeBLEVersionString : Nat := 1
def TypeAuxBatteryVoltage : Nat := 1
def TypeAuxBatteryCharge : Nat := 4
def TypeAuxBatteryChargerStatus : Nat := 3
def TypeBatteryInfoCharge : Nat := 1
def TypeBatteryInfoCurrent : Nat := 2
def TypeBatteryInfoRemCapacity : Nat := 3
def TypeBatteryInfoFullCapacity : Nat := 4
def TypeBatteryInfoCellVoltage : Nat := 5
def TypeBatteryInfoTemp : Nat := 6
def TypeBatteryInfoCycleCount : Nat := 7
def TypeBatteryInfoStatus : Nat := 8
def TypeBatteryInfoTTE : Nat := 9
def TypeBatteryInfoTTF : Nat := 10
def TypeBatteryInfoProtectionStatus : Nat := 11
def TypeBatteryInfoSOH : Nat := 12
def TypeBatteryInfoUniqueID : Nat := 13
def TypeBatteryInfoSerialNumber : Nat := 14
def TypeBatteryInfoBattStatus : Nat := 15
def TypeBatteryInfoPartNo : Nat := 16
def TypeBatteryInfoPresent : Nat := 17
def TypeBatteryInfoChargeStatus : Nat := 18

/-- Redis key constants (`pkg/service/constants.go`). -/
def KeyBatterySlot1 : String := "battery:0"
def KeyBatterySlot2 : String := "battery:1"
def KeyVehicle : String := "vehicle"
def KeyPowerManager : String := "power-manager"
def KeyMileage : String := "engine-ecu"
def KeyFirmwareVersion : String := "system"
def KeyBLEPairingPin : String := "ble"
def KeyBLEStatus : String := "ble"
def KeyCBBattery : String := "cb-battery"
def KeyCBBatteryAlert : String := "cb-battery:alert"
def KeyCBBatteryFault : String := "cb-battery:fault"

/-- Battery state constants. -/
def BatteryStateUnknown : Nat := 0
def BatteryStateAsleep : Nat := 1
def BatteryStateIdle : Nat := 2
def BatteryStateActive : Nat := 3

/-- MAX1730X status bits (subtype 8). -/
def MAX1730X_STATUS_CURR_MIN_ALERT : Nat := 1 <<< 2
def MAX1730X_STATUS_CURR_MAX_ALERT : Nat := 1 <<< 6
def MAX1730X_STATUS_VOLT_MIN_ALERT : Nat := 1 <<< 8
def MAX1730X_STATUS_VOLT_MAX_ALERT : Nat := 1 <<< 12
def MAX1730X_STATUS_TEMP_MIN_ALERT : Nat := 1 <<< 9
def MAX1730X_STATUS_TEMP_MAX_ALERT : Nat := 1 <<< 13
def MAX1730X_STATUS_SOC_MIN_ALERT : Nat := 1 <<< 10
def MAX1730X_STATUS_SOC_MAX_ALERT : Nat := 1 <<< 14

/-- Combined mask for all relevant status alert bits. -/
def CB_BATTERY_STATUS_FILTER : Nat :=
  MAX1730X_STATUS_CURR_MIN_ALERT ||| MAX1730X_STATUS_CURR_MAX_ALERT |||
  MAX1730X_STATUS_VOLT_MIN_ALERT ||| MAX1730X_STATUS_VOLT_MAX_ALERT |||
  MAX1730X_STATUS_TEMP_MIN_ALERT ||| MAX1730X_STATUS_TEMP_MAX_ALERT |||
  MAX1730X_STATUS_SOC_MIN_ALERT ||| MAX1730X_STATUS_SOC_MAX_ALERT

/-- MAX1730X protection status bits (subtype 11). -/
def MAX1730X_PROTSTATUS_ODCP : Nat := 1 <<< 2
def MAX1730X_PROTSTATUS_UVP : Nat := 1 <<< 3
def MAX1730X_PROTSTATUS_TOOHOTD : Nat := 1 <<< 4
def MAX1730X_PROTSTATUS_DIEHOT : Nat := 1 <<< 5
def MAX1730X_PROTSTATUS_TOOCOLDC : Nat := 1 <<< 12
def MAX1730X_PROTSTATUS_OVP : Nat := 1 <<< 11
def MAX1730X_PROTSTATUS_OCCP : Nat := 1 <<< 10
def MAX1730X_PROTSTATUS_QOVFLW : Nat := 1 <<< 9
def MAX1730X_PROTSTATUS_TOOHOTC : Nat := 1 <<< 14
def MAX1730X_PROTSTATUS_FULL : Nat := 1 <<< 13

/-- Combined mask for all relevant protection status fault bits. -/
def CB_BATTERY_PROTECTION_STATUS_FILTER : Nat :=
  MAX1730X_PROTSTATUS_ODCP ||| MAX1730X_PROTSTATUS_UVP |||
  MAX1730X_PROTSTATUS_TOOHOTD ||| MAX1730X_PROTSTATUS_DIEHOT |||
  MAX1730X_PROTSTATUS_TOOCOLDC ||| MAX1730X_PROTSTATUS_OVP |||
  MAX1730X_PROTSTATUS_OCCP ||| MAX1730X_PROTSTATUS_QOVFLW |||
  MAX1730X_PROTSTATUS_TOOHOTC ||| MAX1730X_PROTSTATUS_FULL

/-- MAX1730X battery status bits (subtype 15). -/
def MAX1730X_BATTSTATUS_CHG_FET_FAIL : Nat := 1 <<< 12
def MAX1730X_BATTSTATUS_DISCHG_FET_FAIL : Nat := 1 <<< 11
def MAX1730X_BATTSTATUS_FET_FAIL_OPEN : Nat := 1 <<< 10

/-- Combined mask for all relevant battery status fault bits. -/
def CB_BATTERY_BATT_STATUS_FILTER : Nat :=
  MAX1730X_BATTSTATUS_CHG_FET_FAIL ||| MAX1730X_BATTSTATUS_DISCHG_FET_FAIL |||
  MAX1730X_BATTSTATUS_FET_FAIL_OPEN

/-- Decoded CBOR values handed to the router (`interface{}` after
`cbor.Unmarshal`): unsigned and signed integers, text strings, arrays, and
nested maps with (uint64) integer keys. -/
inductive CVal where
  | u64 (n : Nat)
  | i64 (n : Int)
  | str (s : String)
  | arr (xs : List CVal)
  | cmap (entries : List (Nat × CVal))
  deriving Repr

/-- Largest value of the build's `int` (64-bit). -/
def intMaxVal : Int := 2 ^ 63 - 1

/-- `convertToInt`: safe conversion of a decoded value to the Go `int`.
`uint64` succeeds when it fits the signed range; `int64` always fits the
64-bit build's `int`; other value shapes fail. -/
def convertToInt : CVal → Option Int
  | .u64 n => if (n : Int) ≤ intMaxVal then some (n : Int) else none
  | .i64 n => some n
  | _ => none

/-- `convertToString`: safe conversion of a decoded value to a string. -/
def convertToString : CVal → Option String
  | .str s => some s
  | _ => none

/-- One externally observable action of a handler: a Redis hash write
(plain or write-and-publish), a hash-field delete, a list push, or an
outbound UART message send. -/
inductive Effect where
  | writeInt (key field : String) (v : Int)
  | writeString (key field : String) (s : String)
  | writeAndPublishInt (key field : String) (v : Int)
  | writeAndPublishString (key field : String) (s : String)
  | hdel (key field : String)
  | lpush (key value : String)
  | sendMsg (messageType absoluteKey value : Nat)
  deriving DecidableEq, Repr

/-- The publish performed by a `WriteAndPublish*` effect: the channel is the
key, the payload is `"<field>:<value>"` (`fmt.Sprintf`).  Plain writes,
deletes, pushes and UART sends publish nothing. -/
def publishOf : Effect → Option (String × String)
  | .writeAndPublishString key field value => some (key, field ++ ":" ++ value)
  | .writeAndPublishInt key field value => some (key, field ++ ":" ++ toString value)
  | _ => none

/-- `writeUARTMessage(sock, messageType, subType, value)`: computes the
absolute subtype key `messageType + subType` (uint16 arithmetic) and sends
one frame whose ID is the low byte of the message type carrying the
envelope `{messageType: {absoluteKey: value}}`.  Modelled as one abstract
send effect recording the envelope contents. -/
def writeUARTMessage (messageType subType value : Nat) : Effect :=
  .sendMsg messageType ((messageType + subType) % 65536) (value % 65536)

/-- `batteryStateToInt`: battery state string to integer. -/
def batteryStateToInt (state : String) : Nat :=
  if state = "unknown" then BatteryStateUnknown
  else if state = "asleep" then BatteryStateAsleep
  else if state = "idle" then BatteryStateIdle
  else if state = "active" then BatteryStateActive
  else BatteryStateUnknown

/-- `handleBatteryMessage(subType, value, slot)`: slot-battery fields.
`subType` is the relative subtype computed by the dispatcher; the `case`
labels are the `TypeBatterySlot*` constants. -/
def handleBatteryMessage (subType : Nat) (value : CVal) (slot : Nat) : List Effect :=
  let redisKey := if slot = 2 then KeyBatterySlot2 else KeyBatterySlot1
  if subType = TypeBatterySlot1State ∨ subType = TypeBatterySlot2State then
    match convertToInt value with
    | some state => [.writeInt redisKey "state" state]
    | none => []
  else if subType = TypeBatterySlot1Presence ∨ subType = TypeBatterySlot2Presence then
    match convertToInt value with
    | some present =>
        [.writeString redisKey "present" (if present ≠ 0 then "true" else "false")]
    | none => []
  else if subType = TypeBatterySlot1CycleCount ∨ subType = TypeBatterySlot2CycleCount then
    match convertToInt value with
    | some count => [.writeInt redisKey "cycle-count" count]
    | none => []
  else if subType = TypeBatterySlot1Charge ∨ subType = TypeBatterySlot2Charge then
    match convertToInt value with
    | some charge => [.writeInt redisKey "charge" charge]
    | none => []
  else []

/-- `handleVehicleStateMessage`: subtypes 1/2/3 are decoded and logged only;
no store writes. -/
def handleVehicleStateMessage (_subType : Nat) (_value : CVal) : List Effect := []

/-- `handleScooterInfoMessage(msgType, absSubTypeKey, value)`: mileage and
software version, keyed by absolute subtype. -/
def handleScooterInfoMessage (absSubTypeKey : Nat) (value : CVal) : List Effect :=
  if absSubTypeKey = TypeScooterInfo + TypeMileage then
    match convertToInt value with
    | some mileage => [.writeInt KeyMileage "odometer" mileage]
    | none => []
  else if absSubTypeKey = TypeScooterInfo + TypeSoftwareVersion then
    match convertToString value with
    | some versionStr => [.writeString KeyFirmwareVersion "mdb-version" versionStr]
    | none => []
  else []

/-- `handleBLEVersionMessage`: absolute subtype 0xA001 carries the nRF
firmware version string. -/
def handleBLEVersionMessage (absSubTypeKey : Nat) (value : CVal) : List Effect :=
  if absSubTypeKey = TypeBLEVersion + TypeBLEVersionString then
    match convertToString value with
    | some versionStr => [.writeString KeyBLEStatus "nrf-fw-version" versionStr]
    | none => []
  else []

/-- `handleBLEDebugMessage`: reset-ack is log-only; reset-info `[reason,
count]` writes the count, writes-and-publishes the reason, then sends the
reset ack back. -/
def handleBLEDebugMessage (absSubTypeKey : Nat) (value : CVal) : List Effect :=
  if absSubTypeKey = TypeBLEDebug + TypeBLEDebugResetAck then []
  else if absSubTypeKey = TypeBLEReset then
    match value with
    | .arr [a, b] =>
        match convertToInt a, convertToInt b with
        | some reason, some count =>
            [.writeInt KeyPowerManager "nrf-reset-count" count,
             .writeAndPublishInt KeyPowerManager "nrf-reset-reason" reason,
             writeUARTMessage TypeBLEDebug TypeBLEDebugResetAck 0]
        | _, _ => []
    | _ => []
  else []

/-- `handleDataStreamMessage`: enable is stored; sync is log-only. -/
def handleDataStreamMessage (subType : Nat) (value : CVal) : List Effect :=
  if subType = TypeDataStreamEnable then
    match convertToInt value with
    | some enabled => [.writeInt "aux-battery" "data-stream-enable" enabled]
    | none => []
  else []

/-- `handleAuxBatteryMessage`: voltage, charge, charger status. -/
def handleAuxBatteryMessage (subType : Nat) (value : CVal) : List Effect :=
  if subType = TypeAuxBatteryVoltage then
    match convertToInt value with
    | some voltage => [.writeInt "aux-battery" "voltage" voltage]
    | none => []
  else if subType = TypeAuxBatteryCharge then
    match convertToInt value with
    | some charge => [.writeInt "aux-battery" "charge" charge]
    | none => []
  else if subType = TypeAuxBatteryChargerStatus then
    match convertToString value with
    | some statusStr => [.writeString "aux-battery" "charge-status" statusStr]
    | none => []
  else []

/-- `handlePowerManagementMessage`: device acks, log-only. -/
def handlePowerManagementMessage (_subType : Nat) (_value : CVal) : List Effect := []

/-- `handleBLECommandMessage`: command acknowledgements, log-only. -/
def handleBLECommandMessage (_absSubTypeKey : Nat) (_value : CVal) : List Effect := []

/-- `handleBLEParamMessage(msgType, absSubTypeKey, value)`: MAC address,
pairing PIN display/remove, opaque data, connection status. -/
def handleBLEParamMessage (msgType absSubTypeKey : Nat) (value : CVal) : List Effect :=
  if absSubTypeKey = TypeBLEParam + TypeBLEParamMACAddress then
    match convertToString value with
    | some macAddrStr => [.writeString KeyBLEStatus "mac-address" macAddrStr]
    | none => []
  else if absSubTypeKey = TypeBLEPairingPinDisplay then
    match convertToString value with
    | some strValue => [.writeAndPublishString KeyBLEPairingPin "pin-code" strValue]
    | none => []
  else if absSubTypeKey = TypeBLEPairingPinRemove then
    [.hdel KeyBLEPairingPin "pin-code",
     .writeAndPublishString KeyBLEPairingPin "pin-code" ""]
  else if absSubTypeKey = TypeBLEParam + TypeBLEParamData then []
  else if absSubTypeKey = TypeBLEStatus then
    if msgType = TypeBLEParam then
      match convertToString value with
      | some statusStr => [.writeString KeyBLEStatus "connection-status" statusStr]
      | none => []
    else []
  else []

/-- `handleEventMessage`: whitelisted `"<list> <item>"` event strings are
left-pushed onto their list; anything else is dropped. -/
def handleEventMessage (value : CVal) : List Effect :=
  match value with
  | .str eventStr =>
      if eventStr = "scooter:state unlock" then [.lpush "scooter:state" "unlock"]
      else if eventStr = "scooter:state lock" then [.lpush "scooter:state" "lock"]
      else if eventStr = "scooter:seatbox open" then [.lpush "scooter:seatbox" "open"]
      else if eventStr = "scooter:blinker right" then [.lpush "scooter:blinker" "right"]
      else if eventStr = "scooter:blinker left" then [.lpush "scooter:blinker" "left"]
      else if eventStr = "scooter:blinker both" then [.lpush "scooter:blinker" "both"]
      else if eventStr = "scooter:blinker off" then [.lpush "scooter:blinker" "off"]
      else []
  | _ => []

/-- `handlePowerMuxMessage`: 0 selects `aux`, anything else `cb`;
written and published. -/
def handlePowerMuxMessage (_subType : Nat) (value : CVal) : List Effect :=
  match convertToInt value with
  | some powerMuxState =>
      [.writeAndPublishString "power-mux" "selected-input"
        (if powerMuxState = 0 then "aux" else "cb")]
  | none => []

/-- `writeFaultToRedis(key, source, code, message, faultType)`: code 0xFF
with an empty message clears the field, otherwise the message is written. -/
def writeFaultToRedis (key _source : String) (code : Nat) (message faultType : String) :
    List Effect :=
  if code = 0xFF ∧ message = "" then [.hdel key faultType]
  else [.writeString key faultType message]

/-- The bitmask chain of `handleBatteryInfoMessage` for subtype 8 (status):
first matching alert bit wins; a value clear across the filter mask clears
the alert.  Go's `valueInt & MASK` on `int` is `Int.land`. -/
def handleBatteryInfoStatus (valueInt : Int) : List Effect :=
  if Int.land valueInt MAX1730X_STATUS_CURR_MIN_ALERT ≠ 0 then
    writeFaultToRedis KeyCBBatteryAlert KeyCBBattery 0
      "Minimum Current Alert Threshold Exceeded" "alert"
  else if Int.land valueInt MAX1730X_STATUS_CURR_MAX_ALERT ≠ 0 then
    writeFaultToRedis KeyCBBatteryAlert KeyCBBattery 1
      "Maximum Current Alert Threshold Exceeded" "alert"
  else if Int.land valueInt MAX1730X_STATUS_VOLT_MIN_ALERT ≠ 0 then
    writeFaultToRedis KeyCBBatteryAlert KeyCBBattery 2
      "Minimum Voltage Alert Threshold Exceeded" "alert"
  else if Int.land valueInt MAX1730X_STATUS_VOLT_MAX_ALERT ≠ 0 then
    writeFaultToRedis KeyCBBatteryAlert KeyCBBattery 3
      "Maximum Voltage Alert Threshold Exceeded" "alert"
  else if Int.land valueInt MAX1730X_STATUS_TEMP_MIN_ALERT ≠ 0 then
    writeFaultToRedis KeyCBBatteryAlert KeyCBBattery 4
      "Minimum Temperature Alert Threshold Exceeded" "alert"
  else if Int.land valueInt MAX1730X_STATUS_TEMP_MAX_ALERT ≠ 0 then
    writeFaultToRedis KeyCBBatteryAlert KeyCBBattery 5
      "Maximum Temperature Alert Threshold Exceeded" "alert"
  else if Int.land valueInt MAX1730X_STATUS_SOC_MIN_ALERT ≠ 0 then
    writeFaultToRedis KeyCBBatteryAlert KeyCBBattery 6
      "Minimum SOC Alert Threshold Exceeded" "alert"
  else if Int.land valueInt MAX1730X_STATUS_SOC_MAX_ALERT ≠ 0 then
    writeFaultToRedis KeyCBBatteryAlert KeyCBBattery 7
      "Maximum SOC Alert Threshold Exceeded" "alert"
  else if Int.land valueInt CB_BATTERY_STATUS_FILTER = 0 then
    writeFaultToRedis KeyCBBatteryAlert KeyCBBattery 0xFF "" "alert"
  else []

/-- The bitmask chain of `handleBatteryInfoMessage` for subtype 11
(protection status): discharge fault, then charge fault, then clear. -/
def handleBatteryInfoProtStatus (valueInt : Int) : List Effect :=
  if Int.land valueInt MAX1730X_PROTSTATUS_ODCP ≠ 0 ∨
     Int.land valueInt MAX1730X_PROTSTATUS_UVP ≠ 0 ∨
     Int.land valueInt MAX1730X_PROTSTATUS_TOOHOTD ≠ 0 ∨
     Int.land valueInt MAX1730X_PROTSTATUS_DIEHOT ≠ 0 then
    writeFaultToRedis KeyCBBatteryFault KeyCBBattery 0 "Discharging fault" "fault"
  else if Int.land valueInt MAX1730X_PROTSTATUS_TOOCOLDC ≠ 0 ∨
          Int.land valueInt MAX1730X_PROTSTATUS_OVP ≠ 0 ∨
          Int.land valueInt MAX1730X_PROTSTATUS_OCCP ≠ 0 ∨
          Int.land valueInt MAX1730X_PROTSTATUS_QOVFLW ≠ 0 ∨
          Int.land valueInt MAX1730X_PROTSTATUS_TOOHOTC ≠ 0 ∨
          Int.land valueInt MAX1730X_PROTSTATUS_FULL ≠ 0 ∨
          Int.land valueInt MAX1730X_PROTSTATUS_DIEHOT ≠ 0 then
    writeFaultToRedis KeyCBBatteryFault KeyCBBattery 1 "Charging fault" "fault"
  else if Int.land valueInt CB_BATTERY_PROTECTION_STATUS_FILTER = 0 then
    writeFaultToRedis KeyCBBatteryFault KeyCBBattery 0xFF "" "fault"
  else []

/-- The bitmask chain of `handleBatteryInfoMessage` for subtype 15
(battery status): FET failures, then clear. -/
def handleBatteryInfoBattStatus (valueInt : Int) : List Effect :=
  if Int.land valueInt MAX1730X_BATTSTATUS_CHG_FET_FAIL ≠ 0 then
    writeFaultToRedis KeyCBBatteryFault KeyCBBattery 2
      "ChargeFET Failure-Short Detected" "fault"
  else if Int.land valueInt MAX1730X_BATTSTATUS_DISCHG_FET_FAIL ≠ 0 then
    writeFaultToRedis KeyCBBatteryFault KeyCBBattery 3
      "DischargeFET Failure-Short Detected" "fault"
  else if Int.land valueInt MAX1730X_BATTSTATUS_FET_FAIL_OPEN ≠ 0 then
    writeFaultToRedis KeyCBBatteryFault KeyCBBattery 4 "FET Failure open" "fault"
  else if Int.land valueInt CB_BATTERY_BATT_STATUS_FILTER = 0 then
    writeFaultToRedis KeyCBBatteryFault KeyCBBattery 0xFF "" "fault"
  else []

/-- The standard-subtype tail of `handleBatteryInfoMessage`: plain
`cb-battery.<field>` writes with per-subtype value shapes. -/
def handleBatteryInfoStandard (subType : Nat) (value : CVal) : List Effect :=
  if subType = TypeBatteryInfoCharge then
    match convertToInt value with
    | some v => [.writeInt KeyCBBattery "charge" v]
    | none => []
  else if subType = TypeBatteryInfoCurrent then
    match convertToInt value with
    | some v => [.writeInt KeyCBBattery "current" v]
    | none => []
  else if subType = TypeBatteryInfoRemCapacity then
    match convertToInt value with
    | some v => [.writeInt KeyCBBattery "remaining-capacity" v]
    | none => []
  else if subType = TypeBatteryInfoFullCapacity then
    match convertToInt value with
    | some v => [.writeInt KeyCBBattery "full-capacity" v]
    | none => []
  else if subType = TypeBatteryInfoCellVoltage then
    match convertToInt value with
    | some v => [.writeInt KeyCBBattery "cell-voltage" v]
    | none => []
  else if subType = TypeBatteryInfoTemp then
    match convertToInt value with
    | some v => [.writeInt KeyCBBattery "temperature" v]
    | none => []
  else if subType = TypeBatteryInfoCycleCount then
    match convertToInt value with
    | some v => [.writeInt KeyCBBattery "cycle-count" v]
    | none => []
  else if subType = TypeBatteryInfoTTE then
    match convertToInt value with
    | some v => [.writeInt KeyCBBattery "time-to-empty" v]
    | none => []
  else if subType = TypeBatteryInfoTTF then
    match convertToInt value with
    | some v => [.writeInt KeyCBBattery "time-to-full" v]
    | none => []
  else if subType = TypeBatteryInfoSOH then
    match convertToInt value with
    | some v => [.writeInt KeyCBBattery "state-of-health" v]
    | none => []
  else if subType = TypeBatteryInfoUniqueID then
    match convertToString value with
    | some s => [.writeString KeyCBBattery "unique-id" s]
    | none => []
  else if subType = TypeBatteryInfoSerialNumber then
    match convertToString value with
    | some s => [.writeString KeyCBBattery "serial-number" s]
    | none => []
  else if subType = TypeBatteryInfoPartNo then
    match convertToInt value with
    | some v =>
        [.writeString KeyCBBattery "part-number"
          (if v = 5 then "MAX17301"
           else if v = 6 then "MAX17302"
           else if v = 7 then "MAX17303"
           else "MAX1730X (" ++ toString v ++ ")")]
    | none => []
  else if subType = TypeBatteryInfoPresent then
    match convertToInt value with
    | some v => [.writeString KeyCBBattery "present" (if v ≠ 0 then "true" else "false")]
    | none => []
  else if subType = TypeBatteryInfoChargeStatus then
    match convertToInt value with
    | some v =>
        [.writeString KeyCBBattery "charge-status"
          (if v = 0 then "not-charging" else if v = 1 then "charging" else "unknown")]
    | none => []
  else []

/-- `handleBatteryInfoMessage(subType, value)`: CB battery telemetry.
Bitmask subtypes 8/11/15 produce alert/fault strings (non-integer values
are logged only); all remaining subtypes take the standard path. -/
def handleBatteryInfoMessage (subType : Nat) (value : CVal) : List Effect :=
  if subType = TypeBatteryInfoStatus then
    match convertToInt value with
    | some valueInt => handleBatteryInfoStatus valueInt
    | none => []
  else if subType = TypeBatteryInfoProtectionStatus then
    match convertToInt value with
    | some valueInt => handleBatteryInfoProtStatus valueInt
    | none => []
  else if subType = TypeBatteryInfoBattStatus then
    match convertToInt value with
    | some valueInt => handleBatteryInfoBattStatus valueInt
    | none => []
  else handleBatteryInfoStandard subType value

/-- Relative subtype computation of `HandleUSockMessage`: the subtraction
`absSubTypeKey - msgType` is guarded by `absSubTypeKey >= msgType`;
otherwise the initial value 0 is kept (with a warning log). -/
def relSubType (msgType absSubTypeKey : Nat) : Nat :=
  if absSubTypeKey ≥ msgType then absSubTypeKey - msgType else 0

/-- The per-entry `switch msgType` of `HandleUSockMessage`, given the
already-computed relative subtype. -/
def dispatchEntry (msgType absSubTypeKey rel : Nat) (value : CVal) : List Effect :=
  if msgType = TypeBattery then
    let slot :=
      if TypeBattery + TypeBatterySlot1State ≤ absSubTypeKey ∧
         absSubTypeKey ≤ TypeBattery + TypeBatterySlot1Charge then 1
      else if TypeBattery + TypeBatterySlot2State ≤ absSubTypeKey ∧
              absSubTypeKey ≤ TypeBattery + TypeBatterySlot2Charge then 2
      else 0
    if slot ≠ 0 then handleBatteryMessage rel value slot else []
  else if msgType = TypeVehicleState then handleVehicleStateMessage rel value
  else if msgType = TypeScooterInfo then handleScooterInfoMessage absSubTypeKey value
  else if msgType = TypeBLEParam ∨ msgType = TypeBLEPairingPinDisplay ∨
          msgType = TypeBLEPairingPinRemove ∨ msgType = TypeBLEStatus then
    handleBLEParamMessage msgType absSubTypeKey value
  else if msgType = TypeBLEVersion then handleBLEVersionMessage absSubTypeKey value
  else if msgType = TypeBLEDebug ∨ msgType = TypeBLEReset then
    handleBLEDebugMessage absSubTypeKey value
  else if msgType = TypeDataStream then handleDataStreamMessage rel value
  else if msgType = TypePowerManagement then handlePowerManagementMessage rel value
  else if msgType = TypeAuxBattery then handleAuxBatteryMessage rel value
  else if msgType = TypeBLECommand then handleBLECommandMessage absSubTypeKey value
  else if msgType = TypeBatteryInfo then handleBatteryInfoMessage rel value
  else if msgType = TypePowerMux then handlePowerMuxMessage rel value
  else if msgType = 0x0000 then handleEventMessage value
  else []

/-- Routing of one inner-map entry: compute the relative subtype, then
dispatch on the outer message type. -/
def routeEntry (msgType absSubTypeKey : Nat) (value : CVal) : List Effect :=
  dispatchEntry msgType absSubTypeKey (relSubType msgType absSubTypeKey) value

/-- The 4-byte explicit-ack shape test of `HandleUSockMessage`:
`A1 <msgtype-low> <frame-id> A0` with byte 2 equal to the frame ID. -/
def isAckPayload (frameID : Nat) (rawData : List Nat) : Bool :=
  rawData.length == 4 && rawData.getD 0 0 == 0xA1 &&
  rawData.getD 2 0 == frameID && rawData.getD 3 0 == 0xA0

/-- `HandleUSockMessage(frameID, payload)`, after CBOR decoding: a top-level
map with other than exactly one key is only logged (the empty map may be an
explicit ack, still log-only); otherwise the single entry's inner map is
filtered to uint16 keys and each entry is routed.  Non-map inner values are
logged only. -/
def HandleUSockMessage (frameID : Nat) (rawData : List Nat)
    (msgData : List (Nat × CVal)) : List Effect :=
  if msgData.length ≠ 1 then
    let _ := isAckPayload frameID rawData
    []
  else
    match msgData with
    | [] => []
    | (absoluteMsgType, params) :: _ =>
        match params with
        | .cmap interMap =>
            let paramMap := interMap.filter (fun kv => kv.1 ≤ 0xFFFF)
            paramMap.flatMap (fun kv => routeEntry absoluteMsgType kv.1 kv.2)
        | _ => []

/-- The outbound update function a subscriber goroutine of
`SubscribeToRedisChannels` invokes for a given channel and received
field-name payload. -/
inductive UpdateCall where
  | updateVehicleState
  | updateSeatboxLock
  | updateHandlebarLock
  | updateBatteryActive (slot : Nat)
  | updateBatteryPresentAndCycleCount (slot : Nat)
  | updateBatteryCharge (slot : Nat)
  | updateBatteryCycleCount (slot : Nat)
  | updatePowerManagement
  | updateMileage
  | updateFirmwareVersion
  | pinCodeCheck
  deriving DecidableEq, Repr

/-- The dispatch performed by a subscriber of `SubscribeToRedisChannels`:
the raw publish payload is taken as the field name and matched per
channel; unmatched fields are logged only (`none`). -/
def redisChannelAction (chName field : String) : Option UpdateCall :=
  if chName = KeyVehicle then
    if field = "state" then some .updateVehicleState
    else if field = "seatbox:lock" then some .updateSeatboxLock
    else if field = "handlebar:lock-sensor" then some .updateHandlebarLock
    else none
  else if chName = KeyBatterySlot1 then
    if field = "state" then some (.updateBatteryActive 1)
    else if field = "present" then some (.updateBatteryPresentAndCycleCount 1)
    else if field = "charge" then some (.updateBatteryCharge 1)
    else if field = "cycle-count" then some (.updateBatteryCycleCount 1)
    else none
  else if chName = KeyBatterySlot2 then
    if field = "state" then some (.updateBatteryActive 2)
    else if field = "present" then some (.updateBatteryPresentAndCycleCount 2)
    else if field = "charge" then some (.updateBatteryCharge 2)
    else if field = "cycle-count" then some (.updateBatteryCycleCount 2)
    else none
  else if chName = KeyPowerManager then
    if field = "state" then some .updatePowerManagement else none
  else if chName = KeyMileage then
    if field = "odometer" then some .updateMileage else none
  else if chName = KeyFirmwareVersion then
    if field = "mdb-version" then some .updateFirmwareVersion else none
  else if chName = KeyBLEPairingPin then
    if field = "pin-code" then some .pinCodeCheck else none
  else none

/-- `UpdateBatteryActiveStatus(slot)`: read `state` of the slot's key (a
failed read falls back to `"unknown"`), map it through `batteryStateToInt`,
and send one battery message with the slot's state subtype constant. -/
def UpdateBatteryActiveStatus (slot : Nat) (stateRead : Option String) : List Effect :=
  let baseSubType := if slot = 2 then TypeBatterySlot2State else TypeBatterySlot1State
  let stateStr := stateRead.getD "unknown"
  let status := batteryStateToInt stateStr
  [writeUARTMessage TypeBattery baseSubType status]

/-- The power-management state-string mapping of
`UpdatePowerManagementState`. -/
def powerManagementStateInt (stateStr : String) : Nat :=
  if stateStr = "running" then 1
  else if stateStr = "suspending" then 0
  else if stateStr = "hibernating" then 2
  else if stateStr = "hibernating-l2" then 2
  else if stateStr = "suspending-imminent" then 3
  else if stateStr = "hibernating-imminent" then 4
  else if stateStr = "reboot" then 5
  else if stateStr = "reboot-imminent" then 1
  else 1

/-- `UpdatePowerManagementState`: read `power-manager.state` (a failed read
falls back to `"running"`), send the mapped state; for `"hibernating-l2"`
additionally send the L2 power request. -/
def UpdatePowerManagementState (stateRead : Option String) : List Effect :=
  let stateStr := stateRead.getD "running"
  let stateInt := powerManagementStateInt stateStr
  [writeUARTMessage TypePowerManagement TypePowerManagementState stateInt] ++
    (if stateStr = "hibernating-l2" then
      [writeUARTMessage TypePowerManagement TypePowerManagementPowerRequest 1]
    else [])

end Svc

/-!
Part 3: lemmas about the frame codec.
-/

namespace Usock

/-- Every entry of the CRC table fits in 16 bits. -/
lemma crc16Table_getD_lt (i : Nat) : crc16Table.getD i 0 < 65536 := by
  by_cases h : i < 256
  · exact (by decide : ∀ j < 256, crc16Table.getD j 0 < 65536) i h
  · rw [List.getD_eq_default]
    · decide
    · have : crc16Table.length = 256 := by decide
      omega

/-- `calculateCRC16` stays below `2^16` when the seed does. -/
lemma calculateCRC16_lt (data : List Nat) (seed : Nat) (h : seed < 65536) :
    calculateCRC16 data seed < 65536 := by
  induction data generalizing seed with
  | nil => exact h
  | cons b t ih =>
      apply ih
      have h1 : seed >>> 8 < 65536 := by
        rw [Nat.shiftRight_eq_div_pow]
        have := Nat.div_le_self seed (2 ^ 8)
        omega
      have h2 : crc16Table.getD ((seed ^^^ b) &&& 0xFF) 0 < 65536 :=
        crc16Table_getD_lt _
      have : (65536 : Nat) = 2 ^ 16 := by norm_num
      rw [this] at h1 h2 ⊢
      exact Nat.xor_lt_two_pow h1 h2

/-- Reassembling the two little-endian bytes of a 16-bit value, the way the
receive machine does (`lo ||| hi << 8`), recovers the value. -/
lemma lowHigh_or (x : Nat) (hx : x < 65536) :
    (x &&& 0xFF) ||| (((x >>> 8) &&& 0xFF) <<< 8) = x := by
  have e1 : x &&& 0xFF = x % 256 := by
    have := Nat.and_pow_two_sub_one_eq_mod x 8
    norm_num at this
    exact this
  have e2 : x >>> 8 = x / 256 := by
    rw [Nat.shiftRight_eq_div_pow]
  have hdiv : x / 256 < 256 := by omega
  have e3 : (x / 256) &&& 0xFF = x / 256 := by
    have := Nat.and_pow_two_sub_one_eq_mod (x / 256) 8
    norm_num at this
    rw [this, Nat.mod_eq_of_lt hdiv]
  have e4 : (x / 256) <<< 8 = 256 * (x / 256) := by
    rw [Nat.shiftLeft_eq]; ring
  rw [e1, e2, e3, e4, Nat.lor_comm]
  have := Nat.mul_add_lt_is_or (i := 8) (b := x % 256) (by omega) (x / 256)
  norm_num at this
  rw [← this]
  omega

/-- Feeding a concatenation of byte streams processes them in sequence and
concatenates the emitted frames. -/
lemma processBytes_append (xs ys : List Nat) (u : RxState) :
    processBytes u (xs ++ ys) =
      ((processBytes (processBytes u xs).1 ys).1,
       (processBytes u xs).2 ++ (processBytes (processBytes u xs).1 ys).2) := by
  induction xs generalizing u with
  | nil => simp [processBytes]
  | cons b t ih => simp [processBytes, ih]

/-- From `Sync1`, the five header bytes of a frame whose reconstructed length
is in bounds drive the machine to `HeaderCRC1`, with the header buffered. -/
lemma feed_header (u : RxState) (hu : u.phase = .sync1) (id lo hi : Nat)
    (hlen : lo ||| (hi <<< 8) ≤ 1024) :
    processBytes u [0xF6, 0xD9, id, lo, hi] =
      ({ u with phase := .headerCRC1, id := id, payloadLen := lo ||| (hi <<< 8),
                headerCRC := calculateCRC16 [0xF6, 0xD9, id, lo, hi] 0,
                buffer := [0xF6, 0xD9, id, lo, hi] }, []) := by
  have hnot : ¬ (lo ||| (hi <<< 8) > MaxPayloadLength) := by
    unfold MaxPayloadLength; omega
  cases u
  simp only at hu
  subst hu
  simp [processBytes, processByte, SyncByte1, SyncByte2, hnot]

/-- From `HeaderCRC1`, two CRC bytes whose reassembled value matches the CRC
of the buffered header move the machine to `Payload` with cleared buffers. -/
lemma feed_headerCRC (u : RxState) (hu : u.phase = .headerCRC1) (c0 c1 : Nat)
    (hmatch : calculateCRC16 u.buffer 0 = c0 ||| (c1 <<< 8)) :
    processBytes u [c0, c1] =
      ({ u with headerCRC := c0 ||| (c1 <<< 8), payload := [], buffer := [],
                phase := .payload }, []) := by
  cases u
  simp only at hu hmatch
  subst hu
  simp [processBytes, processByte, hmatch]

/-- From `Payload` with `k` bytes still missing, feeding exactly those `k ≥ 1`
bytes accumulates them and moves the machine to `PayloadCRC1`, computing the
payload CRC over the buffered payload bytes. -/
lemma feed_payload (rest : List Nat) : ∀ (u : RxState), u.phase = .payload →
    u.payload.length + rest.length = u.payloadLen → rest ≠ [] →
    processBytes u rest =
      ({ u with phase := .payloadCRC1, payload := u.payload ++ rest,
                buffer := u.buffer ++ rest,
                payloadCRC := calculateCRC16 (u.buffer ++ rest) 0 }, []) := by
  induction rest with
  | nil => intro u _ _ hne; exact absurd rfl hne
  | cons b t ih =>
      intro u hu hlen _
      obtain ⟨ph, idv, plen, hc, pc, pl, buf⟩ := u
      simp only at hu hlen ⊢
      subst hu
      by_cases ht : t = []
      · subst ht
        have hge : plen ≤ pl.length + 1 := by simp at hlen; omega
        simp [processBytes, processByte, hge]
      · have hlt : ¬ (plen ≤ pl.length + 1) := by
          have : t.length ≥ 1 := by
            cases t with
            | nil => exact absurd rfl ht
            | cons x xs => simp
          simp at hlen
          omega
        have step : processBytes
            (⟨.payload, idv, plen, hc, pc, pl, buf⟩ : RxState) (b :: t) =
            processBytes
              (⟨.payload, idv, plen, hc, pc, pl ++ [b], buf ++ [b]⟩ : RxState) t := by
          simp [processBytes, processByte, hlt]
        rw [step, ih ⟨.payload, idv, plen, hc, pc, pl ++ [b], buf ++ [b]⟩ rfl
              (by simp at hlen ⊢; omega) ht]
        simp

/-- From `PayloadCRC1`, two CRC bytes whose reassembled value matches the CRC
of the buffered payload complete the frame: the machine emits
`(id, payload)` and resets to `Sync1`. -/
lemma feed_payloadCRC (u : RxState) (hu : u.phase = .payloadCRC1) (c0 c1 : Nat)
    (hmatch : calculateCRC16 u.buffer 0 = c0 ||| (c1 <<< 8)) :
    processBytes u [c0, c1] =
      ({ u with payloadCRC := c0 ||| (c1 <<< 8), phase := .sync1 },
       [(u.id, u.payload)]) := by
  cases u
  simp only at hu hmatch
  subst hu
  simp [processBytes, processByte, hmatch]

/-- Main codec lemma: from any state in `Sync1`, feeding the encoder output
for a payload of length 1..1024 delivers exactly that frame and returns the
machine to `Sync1`. -/
lemma decode_encode (u : RxState) (hu : u.phase = .sync1) (id : Nat)
    (data : List Nat) (h1 : 1 ≤ data.length) (h2 : data.length ≤ 1024) :
    (processBytes u ((WriteWithFrameID id data).getD [])).2 = [(id, data)] ∧
    (processBytes u ((WriteWithFrameID id data).getD [])).1.phase = .sync1 := by
  have henc : (WriteWithFrameID id data).getD [] =
      [0xF6, 0xD9, id, data.length &&& 0xFF, (data.length >>> 8) &&& 0xFF] ++
      ([calculateCRC16 [0xF6, 0xD9, id, data.length &&& 0xFF,
          (data.length >>> 8) &&& 0xFF] 0 &&& 0xFF,
        (calculateCRC16 [0xF6, 0xD9, id, data.length &&& 0xFF,
          (data.length >>> 8) &&& 0xFF] 0 >>> 8) &&& 0xFF] ++
       (data ++ [calculateCRC16 data 0 &&& 0xFF,
                 (calculateCRC16 data 0 >>> 8) &&& 0xFF])) := by
    have : ¬ (data.length > MaxPayloadLength) := by unfold MaxPayloadLength; omega
    simp [WriteWithFrameID, this, SyncByte1, SyncByte2]
  have hLlt : data.length < 65536 := by omega
  have hLrec : (data.length &&& 0xFF) ||| (((data.length >>> 8) &&& 0xFF) <<< 8) =
      data.length := lowHigh_or _ hLlt
  set lo := data.length &&& 0xFF with hlo
  set hi := (data.length >>> 8) &&& 0xFF with hhi
  set hdr := [0xF6, 0xD9, id, lo, hi] with hhdr
  set hcrc := calculateCRC16 hdr 0 with hhcrc
  set pcrc := calculateCRC16 data 0 with hpcrc
  have hcrcLt : hcrc < 65536 := calculateCRC16_lt _ _ (by omega)
  have pcrcLt : pcrc < 65536 := calculateCRC16_lt _ _ (by omega)
  have s1 := feed_header u hu id lo hi (by rw [hLrec]; omega)
  rw [henc, processBytes_append, s1]
  have s2 := feed_headerCRC
      ({ u with phase := .headerCRC1, id := id, payloadLen := lo ||| (hi <<< 8),
                headerCRC := hcrc, buffer := hdr })
      rfl (hcrc &&& 0xFF) ((hcrc >>> 8) &&& 0xFF)
      (by simp only; rw [lowHigh_or hcrc hcrcLt])
  rw [processBytes_append, s2]
  have s3 := feed_payload data
      ({ u with phase := .payload, id := id, payloadLen := lo ||| (hi <<< 8),
                headerCRC := (hcrc &&& 0xFF) ||| (((hcrc >>> 8) &&& 0xFF) <<< 8),
                payload := [], buffer := [] })
      rfl (by simp [hLrec]) (by intro hcon; rw [hcon] at h1; simp at h1)
  rw [processBytes_append, s3]
  have s4 := feed_payloadCRC
      ({ u with phase := .payloadCRC1, id := id, payloadLen := lo ||| (hi <<< 8),
                headerCRC := (hcrc &&& 0xFF) ||| (((hcrc >>> 8) &&& 0xFF) <<< 8),
                payload := [] ++ data, buffer := [] ++ data,
                payloadCRC := calculateCRC16 ([] ++ data) 0 })
      rfl (pcrc &&& 0xFF) ((pcrc >>> 8) &&& 0xFF)
      (by simp only [List.nil_append]; rw [← hpcrc, lowHigh_or pcrc pcrcLt])
  rw [s4]
  simp

end Usock

/-!
Part 4: lemmas about the message router and the pub/sub dispatch.
-/

namespace Svc

/-- If `v & F = 0` (Go `int` bitwise and), then `v & m = 0` for any
sub-mask `m` of `F`. -/
lemma int_land_zero_of_filter {v : Int} {F m : Nat} (hsub : m &&& F = m)
    (h : Int.land v F = 0) : Int.land v m = 0 := by
  cases v with
  | ofNat n =>
      have hred : Int.land (Int.ofNat n) (Int.ofNat F) = Int.ofNat (n &&& F) := rfl
      rw [show ((F : Nat) : Int) = Int.ofNat F from rfl, hred] at h
      have hnF : n &&& F = 0 := by simpa [Int.ofNat_eq_zero] using h
      have : n &&& m = 0 := by
        calc n &&& m = n &&& (m &&& F) := by rw [hsub]
        _ = n &&& (F &&& m) := by rw [Nat.and_comm m F]
        _ = (n &&& F) &&& m := by rw [Nat.and_assoc]
        _ = 0 &&& m := by rw [hnF]
        _ = 0 := Nat.zero_and m
      rw [show ((m : Nat) : Int) = Int.ofNat m from rfl,
          show Int.land (Int.ofNat n) (Int.ofNat m) = Int.ofNat (n &&& m) from rfl, this]
      rfl
  | negSucc n =>
      have hred : Int.land (Int.negSucc n) (Int.ofNat F) = Int.ofNat (Nat.ldiff F n) := rfl
      rw [show ((F : Nat) : Int) = Int.ofNat F from rfl, hred] at h
      have hF0 : Nat.ldiff F n = 0 := by simpa [Int.ofNat_eq_zero] using h
      have hm0 : Nat.ldiff m n = 0 := by
        apply Nat.eq_of_testBit_eq
        intro i
        have hFi : Nat.testBit (Nat.ldiff F n) i = Nat.testBit 0 i := by rw [hF0]
        rw [Nat.testBit_ldiff, Nat.zero_testBit] at hFi ⊢
        have hmF : Nat.testBit (m &&& F) i = Nat.testBit m i := by rw [hsub]
        rw [Nat.testBit_and] at hmF
        cases hm : m.testBit i <;> cases hn : n.testBit i <;> simp_all
      rw [show ((m : Nat) : Int) = Int.ofNat m from rfl,
          show Int.land (Int.negSucc n) (Int.ofNat m) = Int.ofNat (Nat.ldiff m n) from rfl,
          hm0]
      rfl

/-- Membership in a handler effect list built from plain writes only. -/
lemma handleBatteryMessage_pub (rel : Nat) (v : CVal) (slot : Nat) (e : Effect)
    (he : e ∈ handleBatteryMessage rel v slot) : publishOf e = none := by
  unfold handleBatteryMessage at he
  dsimp only at he
  repeat' split at he
  all_goals first
    | exact absurd he (List.not_mem_nil e)
    | (rw [List.mem_singleton] at he; subst he; rfl)

/-- Scooter-info handler effects never publish. -/
lemma handleScooterInfoMessage_pub (k : Nat) (v : CVal) (e : Effect)
    (he : e ∈ handleScooterInfoMessage k v) : publishOf e = none := by
  unfold handleScooterInfoMessage at he
  repeat' split at he
  all_goals first
    | exact absurd he (List.not_mem_nil e)
    | (rw [List.mem_singleton] at he; subst he; rfl)

/-- BLE-version handler effects never publish. -/
lemma handleBLEVersionMessage_pub (k : Nat) (v : CVal) (e : Effect)
    (he : e ∈ handleBLEVersionMessage k v) : publishOf e = none := by
  unfold handleBLEVersionMessage at he
  repeat' split at he
  all_goals first
    | exact absurd he (List.not_mem_nil e)
    | (rw [List.mem_singleton] at he; subst he; rfl)

/-- Data-stream handler effects never publish. -/
lemma handleDataStreamMessage_pub (rel : Nat) (v : CVal) (e : Effect)
    (he : e ∈ handleDataStreamMessage rel v) : publishOf e = none := by
  unfold handleDataStreamMessage at he
  repeat' split at he
  all_goals first
    | exact absurd he (List.not_mem_nil e)
    | (rw [List.mem_singleton] at he; subst he; rfl)

/-- Aux-battery handler effects never publish. -/
lemma handleAuxBatteryMessage_pub (rel : Nat) (v : CVal) (e : Effect)
    (he : e ∈ handleAuxBatteryMessage rel v) : publishOf e = none := by
  unfold handleAuxBatteryMessage at he
  repeat' split at he
  all_goals first
    | exact absurd he (List.not_mem_nil e)
    | (rw [List.mem_singleton] at he; subst he; rfl)

/-- Event handler effects (list pushes) never publish. -/
lemma handleEventMessage_pub (v : CVal) (e : Effect)
    (he : e ∈ handleEventMessage v) : publishOf e = none := by
  unfold handleEventMessage at he
  repeat' split at he
  all_goals first
    | exact absurd he (List.not_mem_nil e)
    | (rw [List.mem_singleton] at he; subst he; rfl)

/-- Fault/alert writes never publish. -/
lemma writeFaultToRedis_pub (key src : String) (code : Nat) (msg ft : String) (e : Effect)
    (he : e ∈ writeFaultToRedis key src code msg ft) : publishOf e = none := by
  unfold writeFaultToRedis at he
  repeat' split at he
  all_goals first
    | exact absurd he (List.not_mem_nil e)
    | (rw [List.mem_singleton] at he; subst he; rfl)

/-- Status-chain effects never publish. -/
lemma handleBatteryInfoStatus_pub (n : Int) (e : Effect)
    (he : e ∈ handleBatteryInfoStatus n) : publishOf e = none := by
  unfold handleBatteryInfoStatus at he
  repeat' split at he
  all_goals first
    | exact writeFaultToRedis_pub _ _ _ _ _ _ he
    | exact absurd he (List.not_mem_nil e)

/-- Protection-status-chain effects never publish. -/
lemma handleBatteryInfoProtStatus_pub (n : Int) (e : Effect)
    (he : e ∈ handleBatteryInfoProtStatus n) : publishOf e = none := by
  unfold handleBatteryInfoProtStatus at he
  repeat' split at he
  all_goals first
    | exact writeFaultToRedis_pub _ _ _ _ _ _ he
    | exact absurd he (List.not_mem_nil e)

/-- Battery-status-chain effects never publish. -/
lemma handleBatteryInfoBattStatus_pub (n : Int) (e : Effect)
    (he : e ∈ handleBatteryInfoBattStatus n) : publishOf e = none := by
  unfold handleBatteryInfoBattStatus at he
  repeat' split at he
  all_goals first
    | exact writeFaultToRedis_pub _ _ _ _ _ _ he
    | exact absurd he (List.not_mem_nil e)

/-- Standard CB-battery writes never publish. -/
lemma handleBatteryInfoStandard_pub (st : Nat) (v : CVal) (e : Effect)
    (he : e ∈ handleBatteryInfoStandard st v) : publishOf e = none := by
  unfold handleBatteryInfoStandard at he
  by_cases h0 : st = TypeBatteryInfoCharge
  · rw [if_pos h0] at he
    repeat' split at he
    all_goals first
      | exact absurd he (List.not_mem_nil e)
      | (rw [List.mem_singleton] at he; subst he; rfl)
  · rw [if_neg h0] at he
    by_cases h1 : st = TypeBatteryInfoCurrent
    · rw [if_pos h1] at he
      repeat' split at he
      all_goals first
        | exact absurd he (List.not_mem_nil e)
        | (rw [List.mem_singleton] at he; subst he; rfl)
    · rw [if_neg h1] at he
      by_cases h2 : st = TypeBatteryInfoRemCapacity
      · rw [if_pos h2] at he
        repeat' split at he
        all_goals first
          | exact absurd he (List.not_mem_nil e)
          | (rw [List.mem_singleton] at he; subst he; rfl)
      · rw [if_neg h2] at he
        by_cases h3 : st = TypeBatteryInfoFullCapacity
        · rw [if_pos h3] at he
          repeat' split at he
          all_goals first
            | exact absurd he (List.not_mem_nil e)
            | (rw [List.mem_singleton] at he; subst he; rfl)
        · rw [if_neg h3] at he
          by_cases h4 : st = TypeBatteryInfoCellVoltage
          · rw [if_pos h4] at he
            repeat' split at he
            all_goals first
              | exact absurd he (List.not_mem_nil e)
              | (rw [List.mem_singleton] at he; subst he; rfl)
          · rw [if_neg h4] at he
            by_cases h5 : st = TypeBatteryInfoTemp
            · rw [if_pos h5] at he
              repeat' split at he
              all_goals first
                | exact absurd he (List.not_mem_nil e)
                | (rw [List.mem_singleton] at he; subst he; rfl)
            · rw [if_neg h5] at he
              by_cases h6 : st = TypeBatteryInfoCycleCount
              · rw [if_pos h6] at he
                repeat' split at he
                all_goals first
                  | exact absurd he (List.not_mem_nil e)
                  | (rw [List.mem_singleton] at he; subst he; rfl)
              · rw [if_neg h6] at he
                by_cases h7 : st = TypeBatteryInfoTTE
                · rw [if_pos h7] at he
                  repeat' split at he
                  all_goals first
                    | exact absurd he (List.not_mem_nil e)
                    | (rw [List.mem_singleton] at he; subst he; rfl)
                · rw [if_neg h7] at he
                  by_cases h8 : st = TypeBatteryInfoTTF
                  · rw [if_pos h8] at he
                    repeat' split at he
                    all_goals first
                      | exact absurd he (List.not_mem_nil e)
                      | (rw [List.mem_singleton] at he; subst he; rfl)
                  · rw [if_neg h8] at he
                    by_cases h9 : st = TypeBatteryInfoSOH
                    · rw [if_pos h9] at he
                      repeat' split at he
                      all_goals first
                        | exact absurd he (List.not_mem_nil e)
                        | (rw [List.mem_singleton] at he; subst he; rfl)
                    · rw [if_neg h9] at he
                      by_cases h10 : st = TypeBatteryInfoUniqueID
                      · rw [if_pos h10] at he
                        repeat' split at he
                        all_goals first
                          | exact absurd he (List.not_mem_nil e)
                          | (rw [List.mem_singleton] at he; subst he; rfl)
                      · rw [if_neg h10] at he
                        by_cases h11 : st = TypeBatteryInfoSerialNumber
                        · rw [if_pos h11] at he
                          repeat' split at he
                          all_goals first
                            | exact absurd he (List.not_mem_nil e)
                            | (rw [List.mem_singleton] at he; subst he; rfl)
                        · rw [if_neg h11] at he
                          by_cases h12 : st = TypeBatteryInfoPartNo
                          · rw [if_pos h12] at he
                            repeat' split at he
                            all_goals first
                              | exact absurd he (List.not_mem_nil e)
                              | (rw [List.mem_singleton] at he; subst he; rfl)
                          · rw [if_neg h12] at he
                            by_cases h13 : st = TypeBatteryInfoPresent
                            · rw [if_pos h13] at he
                              repeat' split at he
                              all_goals first
                                | exact absurd he (List.not_mem_nil e)
                                | (rw [List.mem_singleton] at he; subst he; rfl)
                            · rw [if_neg h13] at he
                              by_cases h14 : st = TypeBatteryInfoChargeStatus
                              · rw [if_pos h14] at he
                                repeat' split at he
                                all_goals first
                                  | exact absurd he (List.not_mem_nil e)
                                  | (rw [List.mem_singleton] at he; subst he; rfl)
                              · rw [if_neg h14] at he
                                exact absurd he (List.not_mem_nil e)

/-- CB-battery-info handler effects never publish. -/
lemma handleBatteryInfoMessage_pub (st : Nat) (v : CVal) (e : Effect)
    (he : e ∈ handleBatteryInfoMessage st v) : publishOf e = none := by
  unfold handleBatteryInfoMessage at he
  repeat' split at he
  all_goals first
    | exact handleBatteryInfoStatus_pub _ _ he
    | exact handleBatteryInfoProtStatus_pub _ _ he
    | exact handleBatteryInfoBattStatus_pub _ _ he
    | exact handleBatteryInfoStandard_pub _ _ _ he
    | exact absurd he (List.not_mem_nil e)

/-- Payload of a pin-code publish is never the bare field name. -/
lemma pin_payload_ne (s : String) : "pin-code" ++ ":" ++ s ≠ "pin-code" := by
  intro h
  have hl := congrArg String.length h
  rw [String.length_append, String.length_append] at hl
  have h8 : ("pin-code" : String).length = 8 := rfl
  have h1 : (":" : String).length = 1 := rfl
  omega

/-- Payload of a reset-reason publish is never the field name `state`. -/
lemma reason_payload_ne (s : String) : "nrf-reset-reason" ++ ":" ++ s ≠ "state" := by
  intro h
  have hl := congrArg String.length h
  rw [String.length_append, String.length_append] at hl
  have h16 : ("nrf-reset-reason" : String).length = 16 := rfl
  have h1 : (":" : String).length = 1 := rfl
  have h5 : ("state" : String).length = 5 := rfl
  omega

/-- A publish on the `ble` channel whose payload is not exactly `pin-code`
triggers no update. -/
lemma redisChannelAction_ble (p : String) (hp : p ≠ "pin-code") :
    redisChannelAction KeyBLEPairingPin p = none := by
  unfold redisChannelAction
  rw [if_neg (by decide : ¬ (KeyBLEPairingPin = KeyVehicle)),
      if_neg (by decide : ¬ (KeyBLEPairingPin = KeyBatterySlot1)),
      if_neg (by decide : ¬ (KeyBLEPairingPin = KeyBatterySlot2)),
      if_neg (by decide : ¬ (KeyBLEPairingPin = KeyPowerManager)),
      if_neg (by decide : ¬ (KeyBLEPairingPin = KeyMileage)),
      if_neg (by decide : ¬ (KeyBLEPairingPin = KeyFirmwareVersion)),
      if_pos (rfl : KeyBLEPairingPin = KeyBLEPairingPin), if_neg hp]

/-- A publish on the `power-manager` channel whose payload is not exactly
`state` triggers no update. -/
lemma redisChannelAction_pm (p : String) (hp : p ≠ "state") :
    redisChannelAction KeyPowerManager p = none := by
  unfold redisChannelAction
  rw [if_neg (by decide : ¬ (KeyPowerManager = KeyVehicle)),
      if_neg (by decide : ¬ (KeyPowerManager = KeyBatterySlot1)),
      if_neg (by decide : ¬ (KeyPowerManager = KeyBatterySlot2)),
      if_pos (rfl : KeyPowerManager = KeyPowerManager), if_neg hp]

/-- `power-mux` is not a subscribed channel: no payload triggers an update. -/
lemma redisChannelAction_powermux (p : String) :
    redisChannelAction "power-mux" p = none := by
  unfold redisChannelAction
  rw [if_neg (by decide : ¬ (("power-mux" : String) = KeyVehicle)),
      if_neg (by decide : ¬ (("power-mux" : String) = KeyBatterySlot1)),
      if_neg (by decide : ¬ (("power-mux" : String) = KeyBatterySlot2)),
      if_neg (by decide : ¬ (("power-mux" : String) = KeyPowerManager)),
      if_neg (by decide : ¬ (("power-mux" : String) = KeyMileage)),
      if_neg (by decide : ¬ (("power-mux" : String) = KeyFirmwareVersion)),
      if_neg (by decide : ¬ (("power-mux" : String) = KeyBLEPairingPin))]

/-- BLE-param publishes (pin display, pin remove) never trigger an update. -/
lemma handleBLEParamMessage_pub (mt k : Nat) (v : CVal) (e : Effect) (ch p : String)
    (he : e ∈ handleBLEParamMessage mt k v) (hp : publishOf e = some (ch, p)) :
    redisChannelAction ch p = none := by
  unfold handleBLEParamMessage at he
  by_cases h1 : k = TypeBLEParam + TypeBLEParamMACAddress
  · rw [if_pos h1] at he
    rcases hs : convertToString v with _ | s <;> rw [hs] at he
    · exact absurd he (List.not_mem_nil e)
    · rw [List.mem_singleton] at he; subst he; simp [publishOf] at hp
  · rw [if_neg h1] at he
    by_cases h2 : k = TypeBLEPairingPinDisplay
    · rw [if_pos h2] at he
      rcases hs : convertToString v with _ | s <;> rw [hs] at he
      · exact absurd he (List.not_mem_nil e)
      · rw [List.mem_singleton] at he
        subst he
        simp only [publishOf] at hp
        injection hp with h
        injection h with hch hpp
        subst hch; subst hpp
        exact redisChannelAction_ble _ (pin_payload_ne s)
    · rw [if_neg h2] at he
      by_cases h3 : k = TypeBLEPairingPinRemove
      · rw [if_pos h3] at he
        simp only [List.mem_cons, List.not_mem_nil, or_false] at he
        rcases he with rfl | rfl
        · simp [publishOf] at hp
        · simp only [publishOf] at hp
          injection hp with h
          injection h with hch hpp
          subst hch; subst hpp
          exact redisChannelAction_ble _ (pin_payload_ne "")
      · rw [if_neg h3] at he
        by_cases h4 : k = TypeBLEParam + TypeBLEParamData
        · rw [if_pos h4] at he; exact absurd he (List.not_mem_nil e)
        · rw [if_neg h4] at he
          by_cases h5 : k = TypeBLEStatus
          · rw [if_pos h5] at he
            by_cases h6 : mt = TypeBLEParam
            · rw [if_pos h6] at he
              rcases hs : convertToString v with _ | s <;> rw [hs] at he
              · exact absurd he (List.not_mem_nil e)
              · rw [List.mem_singleton] at he; subst he; simp [publishOf] at hp
            · rw [if_neg h6] at he; exact absurd he (List.not_mem_nil e)
          · rw [if_neg h5] at he; exact absurd he (List.not_mem_nil e)

/-- The BLE-debug reset-info publish never triggers an update. -/
lemma handleBLEDebugMessage_pub (k : Nat) (v : CVal) (e : Effect) (ch p : String)
    (he : e ∈ handleBLEDebugMessage k v) (hp : publishOf e = some (ch, p)) :
    redisChannelAction ch p = none := by
  unfold handleBLEDebugMessage at he
  by_cases h1 : k = TypeBLEDebug + TypeBLEDebugResetAck
  · rw [if_pos h1] at he; exact absurd he (List.not_mem_nil e)
  · rw [if_neg h1] at he
    by_cases h2 : k = TypeBLEReset
    · rw [if_pos h2] at he
      repeat' split at he
      all_goals try exact absurd he (List.not_mem_nil e)
      simp only [List.mem_cons, List.not_mem_nil, or_false] at he
      rcases he with rfl | rfl | rfl
      · simp [publishOf] at hp
      · simp only [publishOf] at hp
        injection hp with h
        injection h with hch hpp
        subst hch; subst hpp
        exact redisChannelAction_pm _ (reason_payload_ne _)
      · simp [publishOf, writeUARTMessage] at hp
    · rw [if_neg h2] at he; exact absurd he (List.not_mem_nil e)

/-- The power-mux publish never triggers an update. -/
lemma handlePowerMuxMessage_pub (rel : Nat) (v : CVal) (e : Effect) (ch p : String)
    (he : e ∈ handlePowerMuxMessage rel v) (hp : publishOf e = some (ch, p)) :
    redisChannelAction ch p = none := by
  unfold handlePowerMuxMessage at he
  rcases hc : convertToInt v with _ | n <;> rw [hc] at he
  · exact absurd he (List.not_mem_nil e)
  · rw [List.mem_singleton] at he
    subst he
    simp only [publishOf] at hp
    injection hp with h
    injection h with hch hpp
    subst hch; subst hpp
    exact redisChannelAction_powermux _

/-- No publish performed while routing an inner-map entry matches a
subscribed channel and field: inbound writes never loop back outbound. -/
lemma routeEntry_pub (mt k : Nat) (v : CVal) (e : Effect) (ch p : String)
    (he : e ∈ routeEntry mt k v) (hp : publishOf e = some (ch, p)) :
    redisChannelAction ch p = none := by
  unfold routeEntry dispatchEntry at he
  dsimp only at he
  by_cases hb : mt = TypeBattery
  · rw [if_pos hb] at he
    by_cases hr1 : TypeBattery + TypeBatterySlot1State ≤ k ∧ k ≤ TypeBattery + TypeBatterySlot1Charge
    · rw [if_pos hr1, if_pos (show (1 : Nat) ≠ 0 by decide)] at he
      exact Option.noConfusion ((handleBatteryMessage_pub _ _ _ _ he).symm.trans hp)
    · rw [if_neg hr1] at he
      by_cases hr2 : TypeBattery + TypeBatterySlot2State ≤ k ∧ k ≤ TypeBattery + TypeBatterySlot2Charge
      · rw [if_pos hr2, if_pos (show (2 : Nat) ≠ 0 by decide)] at he
        exact Option.noConfusion ((handleBatteryMessage_pub _ _ _ _ he).symm.trans hp)
      · rw [if_neg hr2, if_neg (show ¬ ((0 : Nat) ≠ 0) by decide)] at he
        exact absurd he (List.not_mem_nil e)
  · rw [if_neg hb] at he
    by_cases h0 : mt = TypeVehicleState
    · rw [if_pos h0] at he
      exact absurd he (by simp [handleVehicleStateMessage])
    · rw [if_neg h0] at he
      by_cases h1 : mt = TypeScooterInfo
      · rw [if_pos h1] at he
        exact Option.noConfusion ((handleScooterInfoMessage_pub _ _ _ he).symm.trans hp)
      · rw [if_neg h1] at he
        by_cases h2 : mt = TypeBLEParam ∨ mt = TypeBLEPairingPinDisplay ∨ mt = TypeBLEPairingPinRemove ∨ mt = TypeBLEStatus
        · rw [if_pos h2] at he
          exact handleBLEParamMessage_pub _ _ _ _ _ _ he hp
        · rw [if_neg h2] at he
          by_cases h3 : mt = TypeBLEVersion
          · rw [if_pos h3] at he
            exact Option.noConfusion ((handleBLEVersionMessage_pub _ _ _ he).symm.trans hp)
          · rw [if_neg h3] at he
            by_cases h4 : mt = TypeBLEDebug ∨ mt = TypeBLEReset
            · rw [if_pos h4] at he
              exact handleBLEDebugMessage_pub _ _ _ _ _ he hp
            · rw [if_neg h4] at he
              by_cases h5 : mt = TypeDataStream
              · rw [if_pos h5] at he
                exact Option.noConfusion ((handleDataStreamMessage_pub _ _ _ he).symm.trans hp)
              · rw [if_neg h5] at he
                by_cases h6 : mt = TypePowerManagement
                · rw [if_pos h6] at he
                  exact absurd he (by simp [handlePowerManagementMessage])
                · rw [if_neg h6] at he
                  by_cases h7 : mt = TypeAuxBattery
                  · rw [if_pos h7] at he
                    exact Option.noConfusion ((handleAuxBatteryMessage_pub _ _ _ he).symm.trans hp)
                  · rw [if_neg h7] at he
                    by_cases h8 : mt = TypeBLECommand
                    · rw [if_pos h8] at he
                      exact absurd he (by simp [handleBLECommandMessage])
                    · rw [if_neg h8] at he
                      by_cases h9 : mt = TypeBatteryInfo
                      · rw [if_pos h9] at he
                        exact Option.noConfusion ((handleBatteryInfoMessage_pub _ _ _ he).symm.trans hp)
                      · rw [if_neg h9] at he
                        by_cases h10 : mt = TypePowerMux
                        · rw [if_pos h10] at he
                          exact handlePowerMuxMessage_pub _ _ _ _ _ he hp
                        · rw [if_neg h10] at he
                          by_cases h11 : mt = 0x0000
                          · rw [if_pos h11] at he
                            exact Option.noConfusion ((handleEventMessage_pub _ _ he).symm.trans hp)
                          · rw [if_neg h11] at he
                            exact absurd he (List.not_mem_nil e)

/-- Lifting of `routeEntry_pub` to a whole inbound message. -/
lemma handleUSockMessage_pub (frameID : Nat) (raw : List Nat)
    (msg : List (Nat × CVal)) (e : Effect) (ch p : String)
    (he : e ∈ HandleUSockMessage frameID raw msg) (hp : publishOf e = some (ch, p)) :
    redisChannelAction ch p = none := by
  unfold HandleUSockMessage at he
  split at he
  · simp at he
  · split at he
    · exact absurd he (List.not_mem_nil e)
    · split at he
      · rename_i interMap
        dsimp only at he
        rw [List.mem_flatMap] at he
        obtain ⟨kv, _, hkv⟩ := he
        exact routeEntry_pub _ _ _ _ _ _ hkv hp
      · exact absurd he (List.not_mem_nil e)

end Svc

/-!
Part 5: additional helper lemmas used by the claim theorems.
-/

namespace Usock

/-- From `HeaderCRC1`, two CRC bytes whose reassembled value does not
match the CRC of the buffered header reset the machine to `Sync1`. -/
lemma feed_headerCRC_bad (u : RxState) (hu : u.phase = .headerCRC1) (c0 c1 : Nat)
    (hmis : calculateCRC16 u.buffer 0 ≠ c0 ||| (c1 <<< 8)) :
    processBytes u [c0, c1] =
      ({ u with headerCRC := c0 ||| (c1 <<< 8), phase := .sync1 }, []) := by
  cases u
  simp only at hu hmis
  subst hu
  simp [processBytes, processByte, hmis]

end Usock

namespace Svc

/-- The battery state integer is at most 3. -/
lemma batteryStateToInt_le (s : String) : batteryStateToInt s ≤ 3 := by
  unfold batteryStateToInt BatteryStateUnknown BatteryStateAsleep BatteryStateIdle
    BatteryStateActive
  split_ifs <;> omega

/-- The power-management state integer is at most 5. -/
lemma powerManagementStateInt_le (s : String) : powerManagementStateInt s ≤ 5 := by
  unfold powerManagementStateInt
  split_ifs <;> omega

/-- Routing a battery-info entry with absolute key 0x0068 (relative
subtype 8) and an integer-convertible value reaches the status chain. -/
lemma routeEntry_battInfoStatus (c : CVal) (v : Int) (hconv : convertToInt c = some v) :
    routeEntry 0x0060 0x0068 c = handleBatteryInfoStatus v := by
  simp [routeEntry, dispatchEntry, relSubType, handleBatteryInfoMessage, hconv,
    TypeBattery, TypeVehicleState, TypeScooterInfo, TypeBLEParam,
    TypeBLEPairingPinDisplay, TypeBLEPairingPinRemove, TypeBLEStatus, TypeBLEVersion,
    TypeBLEDebug, TypeBLEReset, TypeDataStream, TypePowerManagement, TypeAuxBattery,
    TypeBLECommand, TypeBatteryInfo, TypePowerMux, TypeBatteryInfoStatus]

end Svc

/-!
Part 6: the claim theorems.
-/

/-- C1 (counterexample): the round-trip claim includes payload length 0,
but the encoder's 9-byte frame for frame ID 0 and empty payload makes a
freshly initialized receive state machine deliver no frame at all (the
first payload-CRC byte is consumed as a payload byte). -/
theorem C1_roundtrip_counterexample :
    (Usock.WriteWithFrameID 0 []).isSome = true ∧
    (Usock.processBytes Usock.initRxState
        ((Usock.WriteWithFrameID 0 []).getD [])).2 = [] := by
  constructor
  · decide
  · decide

/-- C1 (amended): frame codec round-trip for every frame ID byte and every
payload of length 1..1024: feeding every byte of the encoder's buffer into
a freshly initialized receive state machine delivers exactly one frame,
whose ID is the frame ID and whose payload is the input payload, leaving
the machine back in `Sync1`. -/
theorem C1_roundtrip (frameID : Nat) (data : List Nat)
    (hid : frameID < 256) (hbytes : ∀ b ∈ data, b < 256)
    (h1 : 1 ≤ data.length) (h2 : data.length ≤ 1024) :
    ∃ enc, Usock.WriteWithFrameID frameID data = some enc ∧
      (Usock.processBytes Usock.initRxState enc).2 = [(frameID, data)] ∧
      (Usock.processBytes Usock.initRxState enc).1.phase = .sync1 := by
  have hnot : ¬ (data.length > Usock.MaxPayloadLength) := by
    unfold Usock.MaxPayloadLength; omega
  refine ⟨(Usock.WriteWithFrameID frameID data).getD [], ?_, ?_, ?_⟩
  · unfold Usock.WriteWithFrameID
    rw [if_neg hnot]
    rfl
  · exact (Usock.decode_encode _ rfl frameID data h1 h2).1
  · exact (Usock.decode_encode _ rfl frameID data h1 h2).2

/-- C1 (witness): round-trip of the frame carrying the sample envelope. -/
theorem C1_roundtrip_witness :
    ∃ enc, Usock.WriteWithFrameID 0xC0 [0xA1, 1, 0xC0, 1] = some enc ∧
      (Usock.processBytes Usock.initRxState enc).2 = [(0xC0, [0xA1, 1, 0xC0, 1])] ∧
      (Usock.processBytes Usock.initRxState enc).1.phase = .sync1 :=
  C1_roundtrip 0xC0 [0xA1, 1, 0xC0, 1] (by decide) (by decide) (by decide) (by decide)

/-- C2 (counterexample): the header CRC stored in an encoded frame is not
the CRC over seven bytes starting at the first sync byte (it is the CRC
over the five bytes through the payload-length field). -/
theorem C2_headerCRC_counterexample :
    ((Usock.WriteWithFrameID 0xC0 [0xA1, 1, 0xC0, 1]).getD []).getD 5 0 |||
      ((((Usock.WriteWithFrameID 0xC0 [0xA1, 1, 0xC0, 1]).getD []).getD 6 0) <<< 8) ≠
      Usock.calculateCRC16
        (((Usock.WriteWithFrameID 0xC0 [0xA1, 1, 0xC0, 1]).getD []).take 7) 0 := by
  decide

/-- C2 (amended): for every encoded frame the stored 16-bit header CRC
equals CRC-16/ARC over the five bytes from the first sync byte through the
payload-length field inclusive, and the receive state machine accepts a
received header CRC exactly when it equals CRC-16/ARC of those five
buffered bytes. -/
theorem C2_headerCRC :
    (∀ (frameID : Nat) (data : List Nat), data.length ≤ 1024 →
      ∃ enc, Usock.WriteWithFrameID frameID data = some enc ∧
        enc.take 5 = [0xF6, 0xD9, frameID,
          data.length &&& 0xFF, (data.length >>> 8) &&& 0xFF] ∧
        (enc.getD 5 0) ||| ((enc.getD 6 0) <<< 8) =
          Usock.calculateCRC16 (enc.take 5) 0) ∧
    (∀ (u : Usock.RxState), u.phase = .sync1 →
      ∀ b2 b3 b4 c0 c1 : Nat, b3 ||| (b4 <<< 8) ≤ 1024 →
      ((Usock.processBytes u [0xF6, 0xD9, b2, b3, b4, c0, c1]).1.phase = .payload ↔
        c0 ||| (c1 <<< 8) = Usock.calculateCRC16 [0xF6, 0xD9, b2, b3, b4] 0)) := by
  constructor
  · intro frameID data hlen
    have hnot : ¬ (data.length > Usock.MaxPayloadLength) := by
      unfold Usock.MaxPayloadLength; omega
    have henc : (Usock.WriteWithFrameID frameID data).getD [] =
        [0xF6, 0xD9, frameID, data.length &&& 0xFF, (data.length >>> 8) &&& 0xFF] ++
        ([Usock.calculateCRC16 [0xF6, 0xD9, frameID, data.length &&& 0xFF,
            (data.length >>> 8) &&& 0xFF] 0 &&& 0xFF,
          (Usock.calculateCRC16 [0xF6, 0xD9, frameID, data.length &&& 0xFF,
            (data.length >>> 8) &&& 0xFF] 0 >>> 8) &&& 0xFF] ++
         (data ++ [Usock.calculateCRC16 data 0 &&& 0xFF,
                   (Usock.calculateCRC16 data 0 >>> 8) &&& 0xFF])) := by
      simp [Usock.WriteWithFrameID, hnot, Usock.SyncByte1, Usock.SyncByte2]
    refine ⟨(Usock.WriteWithFrameID frameID data).getD [], ?_, ?_, ?_⟩
    · unfold Usock.WriteWithFrameID
      rw [if_neg hnot]
      rfl
    · rw [henc]
      simp
    · rw [henc]
      have htake : ([0xF6, 0xD9, frameID, data.length &&& 0xFF,
          (data.length >>> 8) &&& 0xFF] ++
          ([Usock.calculateCRC16 [0xF6, 0xD9, frameID, data.length &&& 0xFF,
              (data.length >>> 8) &&& 0xFF] 0 &&& 0xFF,
            (Usock.calculateCRC16 [0xF6, 0xD9, frameID, data.length &&& 0xFF,
              (data.length >>> 8) &&& 0xFF] 0 >>> 8) &&& 0xFF] ++
           (data ++ [Usock.calculateCRC16 data 0 &&& 0xFF,
                     (Usock.calculateCRC16 data 0 >>> 8) &&& 0xFF]))).take 5 =
          [0xF6, 0xD9, frameID, data.length &&& 0xFF, (data.length >>> 8) &&& 0xFF] := by
        simp
      rw [htake]
      simp only [List.getD_cons_succ, List.getD_cons_zero, List.cons_append,
        List.nil_append]
      exact Usock.lowHigh_or _ (Usock.calculateCRC16_lt _ _ (by omega))
  · intro u hu b2 b3 b4 c0 c1 hlen
    have happ := Usock.processBytes_append [0xF6, 0xD9, b2, b3, b4] [c0, c1] u
    rw [show ([0xF6, 0xD9, b2, b3, b4, c0, c1] : List Nat) =
          [0xF6, 0xD9, b2, b3, b4] ++ [c0, c1] from rfl, happ,
        Usock.feed_header u hu b2 b3 b4 hlen]
    by_cases heq : Usock.calculateCRC16 [0xF6, 0xD9, b2, b3, b4] 0 = c0 ||| (c1 <<< 8)
    · rw [Usock.feed_headerCRC _ rfl c0 c1 heq]
      constructor
      · intro _; exact heq.symm
      · intro _; rfl
    · rw [Usock.feed_headerCRC_bad _ rfl c0 c1 heq]
      constructor
      · intro h; exact absurd h (by simp)
      · intro h; exact absurd h.symm heq

/-- C2 (witness): the amended claim at the sample frame and at a concrete
header whose correct CRC bytes are `F1 B5`. -/
theorem C2_headerCRC_witness :
    (∃ enc, Usock.WriteWithFrameID 0xC0 [0xA1, 1, 0xC0, 1] = some enc ∧
      enc.take 5 = [0xF6, 0xD9, 0xC0,
        ([0xA1, 1, 0xC0, 1] : List Nat).length &&& 0xFF,
        (([0xA1, 1, 0xC0, 1] : List Nat).length >>> 8) &&& 0xFF] ∧
      (enc.getD 5 0) ||| ((enc.getD 6 0) <<< 8) =
        Usock.calculateCRC16 (enc.take 5) 0) ∧
    ((Usock.processBytes Usock.initRxState
        [0xF6, 0xD9, 0xC0, 4, 0, 0xF1, 0xB5]).1.phase = .payload ↔
      0xF1 ||| (0xB5 <<< 8) = Usock.calculateCRC16 [0xF6, 0xD9, 0xC0, 4, 0] 0) :=
  ⟨C2_headerCRC.1 0xC0 [0xA1, 1, 0xC0, 1] (by decide),
   C2_headerCRC.2 Usock.initRxState rfl 0xC0 4 0 0xF1 0xB5 (by decide)⟩

/-- C6 (counterexample): a single garbage byte `0xF6` before a valid
one-byte-payload frame makes the freshly initialized decoder deliver
nothing: the frame's own `0xF6` is consumed in `Sync2` with no re-sync
credit, so the frame is not among the emitted frames — in fact nothing at
all is emitted. -/
theorem C6_resync_counterexample :
    (Usock.WriteWithFrameID 1 [0x42]).isSome = true ∧
    (1, [0x42]) ∉
      (Usock.processBytes Usock.initRxState
        ([0xF6] ++ (Usock.WriteWithFrameID 1 [0x42]).getD [])).2 ∧
    (Usock.processBytes Usock.initRxState
        ([0xF6] ++ (Usock.WriteWithFrameID 1 [0x42]).getD [])).2 = [] := by
  refine ⟨by decide, by decide, by decide⟩

/-- C6 (amended): decoder resynchronization holds for every garbage prefix
that leaves the machine in `Sync1` (in particular one containing no
dangling partial frame): appending a validly encoded frame with payload
length 1..1024 makes the emitted frames exactly those of the garbage
prefix followed by that frame; in particular the frame is delivered among
the frames emitted. -/
theorem C6_resync (G : List Nat) (hG : ∀ b ∈ G, b < 256)
    (hsync : (Usock.processBytes Usock.initRxState G).1.phase = .sync1)
    (frameID : Nat) (hid : frameID < 256)
    (data : List Nat) (hbytes : ∀ b ∈ data, b < 256)
    (h1 : 1 ≤ data.length) (h2 : data.length ≤ 1024) :
    (Usock.processBytes Usock.initRxState
        (G ++ (Usock.WriteWithFrameID frameID data).getD [])).2 =
      (Usock.processBytes Usock.initRxState G).2 ++ [(frameID, data)] ∧
    (frameID, data) ∈
      (Usock.processBytes Usock.initRxState
        (G ++ (Usock.WriteWithFrameID frameID data).getD [])).2 := by
  have heq : (Usock.processBytes Usock.initRxState
      (G ++ (Usock.WriteWithFrameID frameID data).getD [])).2 =
      (Usock.processBytes Usock.initRxState G).2 ++ [(frameID, data)] := by
    rw [Usock.processBytes_append]
    have h := Usock.decode_encode _ hsync frameID data h1 h2
    rw [h.1]
  refine ⟨heq, ?_⟩
  rw [heq]
  exact List.mem_append_right _ (List.mem_singleton_self _)

/-- C6 (witness): resynchronization after the garbage byte `0xAA`. -/
theorem C6_resync_witness :
    (Usock.processBytes Usock.initRxState
        ([0xAA] ++ (Usock.WriteWithFrameID 1 [0x42]).getD [])).2 =
      (Usock.processBytes Usock.initRxState [0xAA]).2 ++ [(1, [0x42])] ∧
    (1, [0x42]) ∈
      (Usock.processBytes Usock.initRxState
        ([0xAA] ++ (Usock.WriteWithFrameID 1 [0x42]).getD [])).2 :=
  C6_resync [0xAA] (by decide) (by decide) 1 (by decide) [0x42] (by decide)
    (by decide) (by decide)

/-- C3 (counterexample): an inbound battery envelope entry with absolute
subtype key 0x00E2 — inside the claimed slot-1 range 0x00E0..0x00E9 — is
not routed to any slot: the router performs no store write at all
(the code's ranges add the battery base a second time). -/
theorem C3_battery_routing_counterexample :
    Svc.routeEntry 0x00E0 0x00E2 (Svc.CVal.u64 3) = [] ∧
    Svc.Effect.writeInt "battery:0" "state" 3 ∉
      Svc.routeEntry 0x00E0 0x00E2 (Svc.CVal.u64 3) := by
  constructor
  · decide
  · decide

/-- C3 (amended): inbound battery routing with the code's doubled-base
keys: absolute subtype keys 0x01C2..0x01C9 select slot 1 (`battery:0`) and
0x01CE..0x01D5 select slot 2 (`battery:1`); within a slot, the state key
(slot base + 2) writes the integer to `state`, presence (+3) writes
`"true"`/`"false"` to `present`, cycle count (+6) and charge (+9) write
their integers. -/
theorem C3_battery_routing (c : Svc.CVal) (v : Int)
    (hconv : Svc.convertToInt c = some v) :
    Svc.routeEntry 0x00E0 0x01C2 c = [Svc.Effect.writeInt "battery:0" "state" v] ∧
    Svc.routeEntry 0x00E0 0x01C3 c =
      [Svc.Effect.writeString "battery:0" "present" (if v ≠ 0 then "true" else "false")] ∧
    Svc.routeEntry 0x00E0 0x01C6 c = [Svc.Effect.writeInt "battery:0" "cycle-count" v] ∧
    Svc.routeEntry 0x00E0 0x01C9 c = [Svc.Effect.writeInt "battery:0" "charge" v] ∧
    Svc.routeEntry 0x00E0 0x01CE c = [Svc.Effect.writeInt "battery:1" "state" v] ∧
    Svc.routeEntry 0x00E0 0x01CF c =
      [Svc.Effect.writeString "battery:1" "present" (if v ≠ 0 then "true" else "false")] ∧
    Svc.routeEntry 0x00E0 0x01D2 c = [Svc.Effect.writeInt "battery:1" "cycle-count" v] ∧
    Svc.routeEntry 0x00E0 0x01D5 c = [Svc.Effect.writeInt "battery:1" "charge" v] := by
  refine ⟨?_, ?_, ?_, ?_, ?_, ?_, ?_, ?_⟩ <;>
    simp [Svc.routeEntry, Svc.dispatchEntry, Svc.relSubType, Svc.handleBatteryMessage,
      Svc.TypeBattery, Svc.TypeBatterySlot1State, Svc.TypeBatterySlot1Presence,
      Svc.TypeBatterySlot1CycleCount, Svc.TypeBatterySlot1Charge,
      Svc.TypeBatterySlot2State, Svc.TypeBatterySlot2Presence,
      Svc.TypeBatterySlot2CycleCount, Svc.TypeBatterySlot2Charge,
      Svc.KeyBatterySlot1, Svc.KeyBatterySlot2, hconv]

/-- C3 (witness): the amended routing at the concrete value 3. -/
theorem C3_battery_routing_witness :
    Svc.routeEntry 0x00E0 0x01C2 (Svc.CVal.u64 3) =
      [Svc.Effect.writeInt "battery:0" "state" 3] ∧
    Svc.routeEntry 0x00E0 0x01C3 (Svc.CVal.u64 3) =
      [Svc.Effect.writeString "battery:0" "present"
        (if (3 : Int) ≠ 0 then "true" else "false")] ∧
    Svc.routeEntry 0x00E0 0x01C6 (Svc.CVal.u64 3) =
      [Svc.Effect.writeInt "battery:0" "cycle-count" 3] ∧
    Svc.routeEntry 0x00E0 0x01C9 (Svc.CVal.u64 3) =
      [Svc.Effect.writeInt "battery:0" "charge" 3] ∧
    Svc.routeEntry 0x00E0 0x01CE (Svc.CVal.u64 3) =
      [Svc.Effect.writeInt "battery:1" "state" 3] ∧
    Svc.routeEntry 0x00E0 0x01CF (Svc.CVal.u64 3) =
      [Svc.Effect.writeString "battery:1" "present"
        (if (3 : Int) ≠ 0 then "true" else "false")] ∧
    Svc.routeEntry 0x00E0 0x01D2 (Svc.CVal.u64 3) =
      [Svc.Effect.writeInt "battery:1" "cycle-count" 3] ∧
    Svc.routeEntry 0x00E0 0x01D5 (Svc.CVal.u64 3) =
      [Svc.Effect.writeInt "battery:1" "charge" 3] :=
  C3_battery_routing (Svc.CVal.u64 3) 3 (by decide)

/-- C4 (counterexample): on a slot-1 battery state change the service sends
one battery envelope, but its single inner key is 0x01C2 (message type plus
the already-absolute slot constant), not the claimed 0x00E2. -/
theorem C4_battery_outbound_counterexample :
    Svc.UpdateBatteryActiveStatus 1 (some "active") =
      [Svc.Effect.sendMsg 0x00E0 0x01C2 3] ∧
    Svc.Effect.sendMsg 0x00E0 0x00E2 3 ∉
      Svc.UpdateBatteryActiveStatus 1 (some "active") := by
  constructor
  · decide
  · decide

/-- C4 (amended): outbound battery state translation: a state change of
`battery:0` (resp. `battery:1`) sends exactly one envelope of the battery
family 0x00E0 whose single inner key is 0x01C2 (resp. 0x01CE), carrying the
integer image of the stored string under the battery-state mapping
(unknown=0, asleep=1, idle=2, active=3, anything else 0). -/
theorem C4_battery_outbound (s : String) :
    Svc.UpdateBatteryActiveStatus 1 (some s) =
      [Svc.Effect.sendMsg 0x00E0 0x01C2 (Svc.batteryStateToInt s)] ∧
    Svc.UpdateBatteryActiveStatus 2 (some s) =
      [Svc.Effect.sendMsg 0x00E0 0x01CE (Svc.batteryStateToInt s)] ∧
    Svc.batteryStateToInt "unknown" = 0 ∧
    Svc.batteryStateToInt "asleep" = 1 ∧
    Svc.batteryStateToInt "idle" = 2 ∧
    Svc.batteryStateToInt "active" = 3 ∧
    (s ∉ (["unknown", "asleep", "idle", "active"] : List String) →
      Svc.batteryStateToInt s = 0) := by
  have hmod : Svc.batteryStateToInt s % 65536 = Svc.batteryStateToInt s :=
    Nat.mod_eq_of_lt (by have := Svc.batteryStateToInt_le s; omega)
  refine ⟨?_, ?_, by decide, by decide, by decide, by decide, ?_⟩
  · simp [Svc.UpdateBatteryActiveStatus, Svc.writeUARTMessage, Svc.TypeBattery,
      Svc.TypeBatterySlot1State, hmod]
  · simp [Svc.UpdateBatteryActiveStatus, Svc.writeUARTMessage, Svc.TypeBattery,
      Svc.TypeBatterySlot2State, hmod]
  · intro hnm
    simp only [List.mem_cons, List.mem_singleton, not_or] at hnm
    obtain ⟨hn1, hn2, hn3, hn4⟩ := hnm
    simp [Svc.batteryStateToInt, hn1, hn2, hn3, hn4, Svc.BatteryStateUnknown]

/-- C4 (witness): the amended claim at the stored strings `active` and
`standby`. -/
theorem C4_battery_outbound_witness :
    Svc.UpdateBatteryActiveStatus 1 (some "active") =
      [Svc.Effect.sendMsg 0x00E0 0x01C2 (Svc.batteryStateToInt "active")] ∧
    Svc.batteryStateToInt "standby" = 0 :=
  ⟨(C4_battery_outbound "active").1,
   (C4_battery_outbound "standby").2.2.2.2.2.2 (by decide)⟩

/-- C5: echo suppression: every publish performed while handling an inbound
message (in particular the empty-string pin-code publish of the
pairing-pin-remove signal 0xA083, whose handler deletes `ble.pin-code`
first) reaches no subscriber dispatch case, so the service's own outbound
handlers are never triggered by its inbound store writes. -/
theorem C5_echo_suppression :
    (∀ (frameID : Nat) (raw : List Nat) (msg : List (Nat × Svc.CVal))
        (e : Svc.Effect) (ch p : String),
        e ∈ Svc.HandleUSockMessage frameID raw msg →
        Svc.publishOf e = some (ch, p) →
        Svc.redisChannelAction ch p = none) ∧
    (∀ c : Svc.CVal,
      Svc.routeEntry 0xA080 0xA083 c =
        [Svc.Effect.hdel "ble" "pin-code",
         Svc.Effect.writeAndPublishString "ble" "pin-code" ""] ∧
      Svc.redisChannelAction "ble" "pin-code:" = none) := by
  constructor
  · intro frameID raw msg e ch p he hp
    exact Svc.handleUSockMessage_pub frameID raw msg e ch p he hp
  · intro c
    constructor
    · simp [Svc.routeEntry, Svc.dispatchEntry, Svc.relSubType,
        Svc.handleBLEParamMessage, Svc.TypeBattery, Svc.TypeVehicleState,
        Svc.TypeScooterInfo, Svc.TypeBLEParam, Svc.TypeBLEPairingPinDisplay,
        Svc.TypeBLEPairingPinRemove, Svc.TypeBLEStatus, Svc.TypeBLEParamMACAddress,
        Svc.KeyBLEPairingPin]
    · decide

/-- C5 (witness): the publish emitted by handling the concrete
pairing-pin-remove envelope triggers no subscriber action. -/
theorem C5_echo_suppression_witness :
    Svc.redisChannelAction "ble" "pin-code:" = none :=
  C5_echo_suppression.1 0x80 [] [(0xA080, Svc.CVal.cmap [(0xA083, Svc.CVal.u64 0)])]
    (Svc.Effect.writeAndPublishString "ble" "pin-code" "") "ble" "pin-code:"
    (by decide) (by decide)

/-- C7: CB battery status alert decoding: a battery-info entry with
absolute key 0x0068 (relative subtype 8) and integer value `v` tests bits
0x0004, 0x0040, 0x0100, 0x1000, 0x0200, 0x2000, 0x0400, 0x4000 in that
fixed order, writing the first matching alert message to
`cb-battery:alert.alert` and nothing else; when `v` is clear across the
union mask the `alert` field is deleted instead. -/
theorem C7_cb_alert (c : Svc.CVal) (v : Int) (hconv : Svc.convertToInt c = some v) :
    (Int.land v 0x0004 ≠ 0 →
      Svc.routeEntry 0x0060 0x0068 c =
        [Svc.Effect.writeString "cb-battery:alert" "alert"
          "Minimum Current Alert Threshold Exceeded"]) ∧
    (Int.land v 0x0004 = 0 → Int.land v 0x0040 ≠ 0 →
      Svc.routeEntry 0x0060 0x0068 c =
        [Svc.Effect.writeString "cb-battery:alert" "alert"
          "Maximum Current Alert Threshold Exceeded"]) ∧
    (Int.land v 0x0004 = 0 → Int.land v 0x0040 = 0 → Int.land v 0x0100 ≠ 0 →
      Svc.routeEntry 0x0060 0x0068 c =
        [Svc.Effect.writeString "cb-battery:alert" "alert"
          "Minimum Voltage Alert Threshold Exceeded"]) ∧
    (Int.land v 0x0004 = 0 → Int.land v 0x0040 = 0 → Int.land v 0x0100 = 0 →
      Int.land v 0x1000 ≠ 0 →
      Svc.routeEntry 0x0060 0x0068 c =
        [Svc.Effect.writeString "cb-battery:alert" "alert"
          "Maximum Voltage Alert Threshold Exceeded"]) ∧
    (Int.land v 0x0004 = 0 → Int.land v 0x0040 = 0 → Int.land v 0x0100 = 0 →
      Int.land v 0x1000 = 0 → Int.land v 0x0200 ≠ 0 →
      Svc.routeEntry 0x0060 0x0068 c =
        [Svc.Effect.writeString "cb-battery:alert" "alert"
          "Minimum Temperature Alert Threshold Exceeded"]) ∧
    (Int.land v 0x0004 = 0 → Int.land v 0x0040 = 0 → Int.land v 0x0100 = 0 →
      Int.land v 0x1000 = 0 → Int.land v 0x0200 = 0 → Int.land v 0x2000 ≠ 0 →
      Svc.routeEntry 0x0060 0x0068 c =
        [Svc.Effect.writeString "cb-battery:alert" "alert"
          "Maximum Temperature Alert Threshold Exceeded"]) ∧
    (Int.land v 0x0004 = 0 → Int.land v 0x0040 = 0 → Int.land v 0x0100 = 0 →
      Int.land v 0x1000 = 0 → Int.land v 0x0200 = 0 → Int.land v 0x2000 = 0 →
      Int.land v 0x0400 ≠ 0 →
      Svc.routeEntry 0x0060 0x0068 c =
        [Svc.Effect.writeString "cb-battery:alert" "alert"
          "Minimum SOC Alert Threshold Exceeded"]) ∧
    (Int.land v 0x0004 = 0 → Int.land v 0x0040 = 0 → Int.land v 0x0100 = 0 →
      Int.land v 0x1000 = 0 → Int.land v 0x0200 = 0 → Int.land v 0x2000 = 0 →
      Int.land v 0x0400 = 0 → Int.land v 0x4000 ≠ 0 →
      Svc.routeEntry 0x0060 0x0068 c =
        [Svc.Effect.writeString "cb-battery:alert" "alert"
          "Maximum SOC Alert Threshold Exceeded"]) ∧
    (Int.land v 0x7744 = 0 →
      Svc.routeEntry 0x0060 0x0068 c = [Svc.Effect.hdel "cb-battery:alert" "alert"]) := by
  have hroute := Svc.routeEntry_battInfoStatus c v hconv
  refine ⟨?_, ?_, ?_, ?_, ?_, ?_, ?_, ?_, ?_⟩
  · intro g1
    rw [hroute]
    simp [Svc.handleBatteryInfoStatus, Svc.MAX1730X_STATUS_CURR_MIN_ALERT,
      Svc.writeFaultToRedis, Svc.KeyCBBatteryAlert, g1]
  · intro z1 g2
    rw [hroute]
    simp [Svc.handleBatteryInfoStatus, Svc.MAX1730X_STATUS_CURR_MIN_ALERT,
      Svc.MAX1730X_STATUS_CURR_MAX_ALERT, Svc.writeFaultToRedis,
      Svc.KeyCBBatteryAlert, z1, g2]
  · intro z1 z2 g3
    rw [hroute]
    simp [Svc.handleBatteryInfoStatus, Svc.MAX1730X_STATUS_CURR_MIN_ALERT,
      Svc.MAX1730X_STATUS_CURR_MAX_ALERT, Svc.MAX1730X_STATUS_VOLT_MIN_ALERT,
      Svc.writeFaultToRedis, Svc.KeyCBBatteryAlert, z1, z2, g3]
  · intro z1 z2 z3 g4
    rw [hroute]
    simp [Svc.handleBatteryInfoStatus, Svc.MAX1730X_STATUS_CURR_MIN_ALERT,
      Svc.MAX1730X_STATUS_CURR_MAX_ALERT, Svc.MAX1730X_STATUS_VOLT_MIN_ALERT,
      Svc.MAX1730X_STATUS_VOLT_MAX_ALERT, Svc.writeFaultToRedis,
      Svc.KeyCBBatteryAlert, z1, z2, z3, g4]
  · intro z1 z2 z3 z4 g5
    rw [hroute]
    simp [Svc.handleBatteryInfoStatus, Svc.MAX1730X_STATUS_CURR_MIN_ALERT,
      Svc.MAX1730X_STATUS_CURR_MAX_ALERT, Svc.MAX1730X_STATUS_VOLT_MIN_ALERT,
      Svc.MAX1730X_STATUS_VOLT_MAX_ALERT, Svc.MAX1730X_STATUS_TEMP_MIN_ALERT,
      Svc.writeFaultToRedis, Svc.KeyCBBatteryAlert, z1, z2, z3, z4, g5]
  · intro z1 z2 z3 z4 z5 g6
    rw [hroute]
    simp [Svc.handleBatteryInfoStatus, Svc.MAX1730X_STATUS_CURR_MIN_ALERT,
      Svc.MAX1730X_STATUS_CURR_MAX_ALERT, Svc.MAX1730X_STATUS_VOLT_MIN_ALERT,
      Svc.MAX1730X_STATUS_VOLT_MAX_ALERT, Svc.MAX1730X_STATUS_TEMP_MIN_ALERT,
      Svc.MAX1730X_STATUS_TEMP_MAX_ALERT, Svc.writeFaultToRedis,
      Svc.KeyCBBatteryAlert, z1, z2, z3, z4, z5, g6]
  · intro z1 z2 z3 z4 z5 z6 g7
    rw [hroute]
    simp [Svc.handleBatteryInfoStatus, Svc.MAX1730X_STATUS_CURR_MIN_ALERT,
      Svc.MAX1730X_STATUS_CURR_MAX_ALERT, Svc.MAX1730X_STATUS_VOLT_MIN_ALERT,
      Svc.MAX1730X_STATUS_VOLT_MAX_ALERT, Svc.MAX1730X_STATUS_TEMP_MIN_ALERT,
      Svc.MAX1730X_STATUS_TEMP_MAX_ALERT, Svc.MAX1730X_STATUS_SOC_MIN_ALERT,
      Svc.writeFaultToRedis, Svc.KeyCBBatteryAlert, z1, z2, z3, z4, z5, z6, g7]
  · intro z1 z2 z3 z4 z5 z6 z7 g8
    rw [hroute]
    simp [Svc.handleBatteryInfoStatus, Svc.MAX1730X_STATUS_CURR_MIN_ALERT,
      Svc.MAX1730X_STATUS_CURR_MAX_ALERT, Svc.MAX1730X_STATUS_VOLT_MIN_ALERT,
      Svc.MAX1730X_STATUS_VOLT_MAX_ALERT, Svc.MAX1730X_STATUS_TEMP_MIN_ALERT,
      Svc.MAX1730X_STATUS_TEMP_MAX_ALERT, Svc.MAX1730X_STATUS_SOC_MIN_ALERT,
      Svc.MAX1730X_STATUS_SOC_MAX_ALERT, Svc.writeFaultToRedis,
      Svc.KeyCBBatteryAlert, z1, z2, z3, z4, z5, z6, z7, g8]
  · intro hF
    have hF' : Int.land v (((0x7744 : Nat)) : Int) = 0 := by
      rw [Nat.cast_ofNat]; exact hF
    have hz1 : Int.land v (((0x0004 : Nat)) : Int) = 0 :=
      Svc.int_land_zero_of_filter (by decide) hF'
    have hz2 : Int.land v (((0x0040 : Nat)) : Int) = 0 :=
      Svc.int_land_zero_of_filter (by decide) hF'
    have hz3 : Int.land v (((0x0100 : Nat)) : Int) = 0 :=
      Svc.int_land_zero_of_filter (by decide) hF'
    have hz4 : Int.land v (((0x1000 : Nat)) : Int) = 0 :=
      Svc.int_land_zero_of_filter (by decide) hF'
    have hz5 : Int.land v (((0x0200 : Nat)) : Int) = 0 :=
      Svc.int_land_zero_of_filter (by decide) hF'
    have hz6 : Int.land v (((0x2000 : Nat)) : Int) = 0 :=
      Svc.int_land_zero_of_filter (by decide) hF'
    have hz7 : Int.land v (((0x0400 : Nat)) : Int) = 0 :=
      Svc.int_land_zero_of_filter (by decide) hF'
    have hz8 : Int.land v (((0x4000 : Nat)) : Int) = 0 :=
      Svc.int_land_zero_of_filter (by decide) hF'
    rw [hroute]
    simp only [Nat.cast_ofNat] at hz1 hz2 hz3 hz4 hz5 hz6 hz7 hz8
    simp [Svc.handleBatteryInfoStatus, Svc.MAX1730X_STATUS_CURR_MIN_ALERT,
      Svc.MAX1730X_STATUS_CURR_MAX_ALERT, Svc.MAX1730X_STATUS_VOLT_MIN_ALERT,
      Svc.MAX1730X_STATUS_VOLT_MAX_ALERT, Svc.MAX1730X_STATUS_TEMP_MIN_ALERT,
      Svc.MAX1730X_STATUS_TEMP_MAX_ALERT, Svc.MAX1730X_STATUS_SOC_MIN_ALERT,
      Svc.MAX1730X_STATUS_SOC_MAX_ALERT, Svc.CB_BATTERY_STATUS_FILTER,
      Svc.writeFaultToRedis, Svc.KeyCBBatteryAlert,
      hz1, hz2, hz3, hz4, hz5, hz6, hz7, hz8, hF]

/-- C7 (witness): value 0x0040 yields the maximum-current alert. -/
theorem C7_cb_alert_witness :
    Svc.routeEntry 0x0060 0x0068 (Svc.CVal.u64 0x40) =
      [Svc.Effect.writeString "cb-battery:alert" "alert"
        "Maximum Current Alert Threshold Exceeded"] :=
  (C7_cb_alert (Svc.CVal.u64 0x40) 0x40 (by decide)).2.1 (by decide) (by decide)

/-- C8: power-management outbound translation: a `power-manager.state`
change sends one power-management message of relative subtype 1 carrying
the mapped integer (running=1, suspending=0, hibernating=2,
hibernating-l2=2, suspending-imminent=3, hibernating-imminent=4, reboot=5,
reboot-imminent=1, anything else 1), and exactly the string
`hibernating-l2` triggers the additional (subtype 2, value 1) message. -/
theorem C8_power_state :
    (∀ s : String,
      Svc.UpdatePowerManagementState (some s) =
        Svc.Effect.sendMsg 0x0800 0x0801 (Svc.powerManagementStateInt s) ::
          (if s = "hibernating-l2"
           then [Svc.Effect.sendMsg 0x0800 0x0802 1] else [])) ∧
    Svc.powerManagementStateInt "running" = 1 ∧
    Svc.powerManagementStateInt "suspending" = 0 ∧
    Svc.powerManagementStateInt "hibernating" = 2 ∧
    Svc.powerManagementStateInt "hibernating-l2" = 2 ∧
    Svc.powerManagementStateInt "suspending-imminent" = 3 ∧
    Svc.powerManagementStateInt "hibernating-imminent" = 4 ∧
    Svc.powerManagementStateInt "reboot" = 5 ∧
    Svc.powerManagementStateInt "reboot-imminent" = 1 ∧
    (∀ s : String,
      s ∉ (["running", "suspending", "hibernating", "hibernating-l2",
            "suspending-imminent", "hibernating-imminent", "reboot",
            "reboot-imminent"] : List String) →
      Svc.powerManagementStateInt s = 1) := by
  refine ⟨?_, by decide, by decide, by decide, by decide, by decide, by decide,
    by decide, by decide, ?_⟩
  · intro s
    have hmod : Svc.powerManagementStateInt s % 65536 = Svc.powerManagementStateInt s :=
      Nat.mod_eq_of_lt (by have := Svc.powerManagementStateInt_le s; omega)
    simp [Svc.UpdatePowerManagementState, Svc.writeUARTMessage,
      Svc.TypePowerManagement, Svc.TypePowerManagementState,
      Svc.TypePowerManagementPowerRequest, hmod]
  · intro s hnm
    simp only [List.mem_cons, List.mem_singleton, not_or] at hnm
    obtain ⟨h1, h2, h3, h4, h5, h6, h7, h8⟩ := hnm
    simp [Svc.powerManagementStateInt, h1, h2, h3, h4, h5, h6, h7, h8]

/-- C8 (witness): the hibernating-l2 double send and the default mapping. -/
theorem C8_power_state_witness :
    Svc.UpdatePowerManagementState (some "hibernating-l2") =
      Svc.Effect.sendMsg 0x0800 0x0801 (Svc.powerManagementStateInt "hibernating-l2") ::
        (if ("hibernating-l2" : String) = "hibernating-l2"
         then [Svc.Effect.sendMsg 0x0800 0x0802 1] else []) ∧
    Svc.powerManagementStateInt "standby" = 1 :=
  ⟨C8_power_state.1 "hibernating-l2",
   C8_power_state.2.2.2.2.2.2.2.2.2 "standby" (by decide)⟩

/-- C9: a decoded top-level map with more than one key produces no store
write, no list push and no outbound send; an empty top-level map — whether
or not the raw payload matches the 4-byte explicit-ack shape — likewise
produces no effect. -/
theorem C9_discard :
    (∀ (frameID : Nat) (raw : List Nat) (msg : List (Nat × Svc.CVal)),
        1 < msg.length → Svc.HandleUSockMessage frameID raw msg = []) ∧
    (∀ (frameID : Nat) (raw : List Nat),
        Svc.isAckPayload frameID raw = false →
        Svc.HandleUSockMessage frameID raw [] = []) := by
  constructor
  · intro frameID raw msg h
    unfold Svc.HandleUSockMessage
    rw [if_pos (by omega)]
  · intro frameID raw _
    unfold Svc.HandleUSockMessage
    rw [if_pos (by simp)]

/-- C9 (witness): a two-key map and a non-ack empty map are discarded. -/
theorem C9_discard_witness :
    Svc.HandleUSockMessage 0 [] [(1, Svc.CVal.u64 0), (2, Svc.CVal.u64 0)] = [] ∧
    Svc.HandleUSockMessage 5 [1, 2, 3] [] = [] :=
  ⟨C9_discard.1 0 [] [(1, Svc.CVal.u64 0), (2, Svc.CVal.u64 0)] (by decide),
   C9_discard.2 5 [1, 2, 3] (by decide)⟩

/-- C10: when an entry's absolute subtype key is numerically smaller than
the 16-bit message type, the computed relative subtype is 0 (not the
wrapped 16-bit difference, which would be nonzero), and dispatch proceeds
with relative subtype 0. -/
theorem C10_no_underflow (msgType absKey : Nat) (c : Svc.CVal)
    (hlt : absKey < msgType) (h16 : msgType < 65536) :
    Svc.relSubType msgType absKey = 0 ∧
    Svc.relSubType msgType absKey ≠ (absKey + 65536 - msgType) % 65536 ∧
    Svc.routeEntry msgType absKey c = Svc.dispatchEntry msgType absKey 0 c := by
  have h0 : Svc.relSubType msgType absKey = 0 := by
    unfold Svc.relSubType
    rw [if_neg (by omega)]
  refine ⟨h0, ?_, ?_⟩
  · rw [h0]
    intro hcon
    omega
  · unfold Svc.routeEntry
    rw [h0]

/-- C10 (witness): absolute key 0x0010 under message type 0x00E0. -/
theorem C10_no_underflow_witness :
    Svc.relSubType 0x00E0 0x0010 = 0 ∧
    Svc.relSubType 0x00E0 0x0010 ≠ (0x0010 + 65536 - 0x00E0) % 65536 ∧
    Svc.routeEntry 0x00E0 0x0010 (Svc.CVal.u64 0) =
      Svc.dispatchEntry 0x00E0 0x0010 0 (Svc.CVal.u64 0) :=
  C10_no_underflow 0x00E0 0x0010 (Svc.CVal.u64 0) (by decide) (by decide)
